import Mathlib

/-!
# CppNet load balancing core: load metrics, load monitor, load predictor,
dispatcher, connection migrators and adaptive limiter

A shallow embedding of `common/network/load_metrics.cpp`,
`cppnet/load_monitor.cpp`, `common/network/load_predictor.cpp`,
`cppnet/dispatcher.cpp`, `common/network/connection_migrator.cpp`,
`cppnet/connection_migrator.cpp` (the load-driven migrator) and the
`AdaptiveLimiter` of `cppnet/flow/flow_monitor.cpp`.

Conventions of the embedding:
* a `double` is an exact rational (`ℚ`): every finite double is a rational
  number, and the arithmetic is taken without rounding;
* a `uint32_t` / `uint64_t` is a `Nat`; where the source computes with them the
  wrap-around is written out as `% 2 ^ 64`;
* `std::atomic<T>` fields are plain fields, a mutex-protected method is one
  atomic step;
* a method that mutates its object returns the new object, a method that both
  mutates and returns gives a pair `(result, new object)`.
-/

set_option autoImplicit false

namespace cppnet

/-! ## LoadMetrics (`common/network/load_metrics.{h,cpp}`) -/

/-- The twelve stored signals of `class LoadMetrics`, with the initial values of
the member initialisers. -/
structure LoadMetrics where
  _cpu_load : ℚ := 0
  _thread_utilization : ℚ := 0
  _context_switch_rate : Nat := 0
  _io_wait_time : Nat := 0
  _packet_rate : Nat := 0
  _bandwidth_usage : ℚ := 0
  _connection_count : Nat := 0
  _memory_pool_usage : ℚ := 0
  _cache_hit_rate : ℚ := 0
  _task_queue_length : Nat := 0
  _response_time : Nat := 0
  _error_rate : ℚ := 0
deriving DecidableEq

namespace LoadMetrics

def _weight_cpu_load : ℚ := 0.15
def _weight_thread_utilization : ℚ := 0.1
def _weight_context_switch_rate : ℚ := 0.05
def _weight_io_wait_time : ℚ := 0.1
def _weight_packet_rate : ℚ := 0.1
def _weight_bandwidth_usage : ℚ := 0.05
def _weight_connection_count : ℚ := 0.15
def _weight_memory_pool_usage : ℚ := 0.1
def _weight_cache_hit_rate : ℚ := 0.05
def _weight_task_queue_length : ℚ := 0.05
def _weight_response_time : ℚ := 0.05
def _weight_error_rate : ℚ := 0.05

/-- The object built by `LoadMetrics::LoadMetrics()`. -/
def init : LoadMetrics := {}

def UpdateCPULoad (m : LoadMetrics) (load : ℚ) : LoadMetrics :=
  { m with _cpu_load := min 1 (max 0 load) }

def UpdateIOWaitTime (m : LoadMetrics) (time : Nat) : LoadMetrics :=
  { m with _io_wait_time := time }

def UpdateConnectionCount (m : LoadMetrics) (count : Nat) : LoadMetrics :=
  { m with _connection_count := count }

def UpdateMemoryPoolUsage (m : LoadMetrics) (usage : ℚ) : LoadMetrics :=
  { m with _memory_pool_usage := min 1 (max 0 usage) }

def UpdateTaskQueueLength (m : LoadMetrics) (length : Nat) : LoadMetrics :=
  { m with _task_queue_length := length }

def UpdatePacketRate (m : LoadMetrics) (rate : Nat) : LoadMetrics :=
  { m with _packet_rate := rate }

def UpdateBandwidthUsage (m : LoadMetrics) (usage : ℚ) : LoadMetrics :=
  { m with _bandwidth_usage := min 1 (max 0 usage) }

def UpdateContextSwitchRate (m : LoadMetrics) (rate : Nat) : LoadMetrics :=
  { m with _context_switch_rate := rate }

def UpdateCacheHitRate (m : LoadMetrics) (rate : ℚ) : LoadMetrics :=
  { m with _cache_hit_rate := min 1 (max 0 rate) }

def UpdateErrorRate (m : LoadMetrics) (rate : ℚ) : LoadMetrics :=
  { m with _error_rate := min 1 (max 0 rate) }

def UpdateThreadUtilization (m : LoadMetrics) (utilization : ℚ) : LoadMetrics :=
  { m with _thread_utilization := min 1 (max 0 utilization) }

def UpdateResponseTime (m : LoadMetrics) (time : Nat) : LoadMetrics :=
  { m with _response_time := time }

/-- The weighted sum accumulated in the local `score` of
`LoadMetrics::CalculateLoadScore`, before the final clamp. -/
def weightedSum (m : LoadMetrics) : ℚ :=
  let cpu_load := m._cpu_load
  let thread_utilization := m._thread_utilization
  let context_switch_rate := min 1 ((m._context_switch_rate : ℚ) / 100000)
  let io_wait_time := min 1 ((m._io_wait_time : ℚ) / 1000000)
  let packet_rate := min 1 ((m._packet_rate : ℚ) / 1000000)
  let bandwidth_usage := m._bandwidth_usage
  let connection_count := min 1 ((m._connection_count : ℚ) / 10000)
  let memory_pool_usage := m._memory_pool_usage
  let cache_hit_rate := 1 - m._cache_hit_rate
  let task_queue_length := min 1 ((m._task_queue_length : ℚ) / 1000)
  let response_time := min 1 ((m._response_time : ℚ) / 1000000)
  let error_rate := m._error_rate
  0 + _weight_cpu_load * cpu_load
    + _weight_thread_utilization * thread_utilization
    + _weight_context_switch_rate * context_switch_rate
    + _weight_io_wait_time * io_wait_time
    + _weight_packet_rate * packet_rate
    + _weight_bandwidth_usage * bandwidth_usage
    + _weight_connection_count * connection_count
    + _weight_memory_pool_usage * memory_pool_usage
    + _weight_cache_hit_rate * cache_hit_rate
    + _weight_task_queue_length * task_queue_length
    + _weight_response_time * response_time
    + _weight_error_rate * error_rate

/-- `LoadMetrics::CalculateLoadScore`: the weighted sum clamped to `[0, 1]`. -/
def CalculateLoadScore (m : LoadMetrics) : ℚ :=
  min 1 (max 0 (weightedSum m))

def GetCPULoad (m : LoadMetrics) : ℚ := m._cpu_load
def GetIOWaitTime (m : LoadMetrics) : Nat := m._io_wait_time
def GetConnectionCount (m : LoadMetrics) : Nat := m._connection_count
def GetMemoryPoolUsage (m : LoadMetrics) : ℚ := m._memory_pool_usage
def GetTaskQueueLength (m : LoadMetrics) : Nat := m._task_queue_length
def GetPacketRate (m : LoadMetrics) : Nat := m._packet_rate
def GetBandwidthUsage (m : LoadMetrics) : ℚ := m._bandwidth_usage
def GetContextSwitchRate (m : LoadMetrics) : Nat := m._context_switch_rate
def GetCacheHitRate (m : LoadMetrics) : ℚ := m._cache_hit_rate
def GetErrorRate (m : LoadMetrics) : ℚ := m._error_rate
def GetThreadUtilization (m : LoadMetrics) : ℚ := m._thread_utilization
def GetResponseTime (m : LoadMetrics) : Nat := m._response_time

/-- Clamping to `[0, 1]` in the words of the specification: `v` itself when
`0 ≤ v ≤ 1`, `0` when `v < 0` and `1` when `v > 1`. -/
def clamp01 (v : ℚ) : ℚ :=
  if v < 0 then 0 else if 1 < v then 1 else v

/-- Every normalized signal is at its maximum load: the ratio fields are 1, the
cache-hit rate is 0 and each count or time is at or over its saturation constant. -/
def AtMaximumLoad (m : LoadMetrics) : Prop :=
  m._cpu_load = 1 ∧ m._thread_utilization = 1 ∧ 100000 ≤ m._context_switch_rate ∧
  1000000 ≤ m._io_wait_time ∧ 1000000 ≤ m._packet_rate ∧ m._bandwidth_usage = 1 ∧
  10000 ≤ m._connection_count ∧ m._memory_pool_usage = 1 ∧ m._cache_hit_rate = 0 ∧
  1000 ≤ m._task_queue_length ∧ 1000000 ≤ m._response_time ∧ m._error_rate = 1

/-- Every signal is at zero load: all fields are 0 except the cache-hit rate,
which is 1. -/
def AtZeroLoad (m : LoadMetrics) : Prop :=
  m._cpu_load = 0 ∧ m._thread_utilization = 0 ∧ m._context_switch_rate = 0 ∧
  m._io_wait_time = 0 ∧ m._packet_rate = 0 ∧ m._bandwidth_usage = 0 ∧
  m._connection_count = 0 ∧ m._memory_pool_usage = 0 ∧ m._cache_hit_rate = 1 ∧
  m._task_queue_length = 0 ∧ m._response_time = 0 ∧ m._error_rate = 0

/-- The six ratio-type fields lie in `[0, 1]`. -/
def RatiosInRange (m : LoadMetrics) : Prop :=
  (0 ≤ m._cpu_load ∧ m._cpu_load ≤ 1) ∧
  (0 ≤ m._thread_utilization ∧ m._thread_utilization ≤ 1) ∧
  (0 ≤ m._bandwidth_usage ∧ m._bandwidth_usage ≤ 1) ∧
  (0 ≤ m._memory_pool_usage ∧ m._memory_pool_usage ≤ 1) ∧
  (0 ≤ m._cache_hit_rate ∧ m._cache_hit_rate ≤ 1) ∧
  (0 ≤ m._error_rate ∧ m._error_rate ≤ 1)

/-- One call of one of the twelve `Update*` setters, with its argument. -/
inductive Setter where
  | CPULoad (load : ℚ)
  | IOWaitTime (time : Nat)
  | ConnectionCount (count : Nat)
  | MemoryPoolUsage (usage : ℚ)
  | TaskQueueLength (length : Nat)
  | PacketRate (rate : Nat)
  | BandwidthUsage (usage : ℚ)
  | ContextSwitchRate (rate : Nat)
  | CacheHitRate (rate : ℚ)
  | ErrorRate (rate : ℚ)
  | ThreadUtilization (utilization : ℚ)
  | ResponseTime (time : Nat)

/-- Perform one setter call on the object. -/
def Setter.run (m : LoadMetrics) : Setter → LoadMetrics
  | .CPULoad v => m.UpdateCPULoad v
  | .IOWaitTime v => m.UpdateIOWaitTime v
  | .ConnectionCount v => m.UpdateConnectionCount v
  | .MemoryPoolUsage v => m.UpdateMemoryPoolUsage v
  | .TaskQueueLength v => m.UpdateTaskQueueLength v
  | .PacketRate v => m.UpdatePacketRate v
  | .BandwidthUsage v => m.UpdateBandwidthUsage v
  | .ContextSwitchRate v => m.UpdateContextSwitchRate v
  | .CacheHitRate v => m.UpdateCacheHitRate v
  | .ErrorRate v => m.UpdateErrorRate v
  | .ThreadUtilization v => m.UpdateThreadUtilization v
  | .ResponseTime v => m.UpdateResponseTime v

/-- The object reached from the initial one by a sequence of setter calls. -/
def afterSetters (calls : List Setter) : LoadMetrics :=
  calls.foldl Setter.run init

/-- The state after every setter was called with its saturating value (and the
cache-hit rate set to 0). -/
def saturated : LoadMetrics :=
  afterSetters [.CPULoad 1, .ThreadUtilization 1, .ContextSwitchRate 100000,
    .IOWaitTime 1000000, .PacketRate 1000000, .BandwidthUsage 1, .ConnectionCount 10000,
    .MemoryPoolUsage 1, .CacheHitRate 0, .TaskQueueLength 1000, .ResponseTime 1000000,
    .ErrorRate 1]

/-- The initial state after `UpdateCacheHitRate(1.0)`: no load at all. -/
def idle : LoadMetrics :=
  afterSetters [.CacheHitRate 1]

end LoadMetrics

/-! ## LoadMonitor (`cppnet/load_monitor.{h,cpp}`) -/

/-- The counters of `struct LoadInfo`, as constructed by `LoadInfo()`. The
`last_update_time` stamp is wall-clock time that no query reads; it is left out. -/
structure LoadInfo where
  connection_count : Nat := 0
  cpu_usage : Nat := 0
  queue_length : Nat := 0
  total_bytes : Nat := 0
deriving DecidableEq, Repr

/-- A registry entry, `struct DispatcherLoad`. The `dispatcher` is the registered
shared pointer: the identity of the `Dispatcher` object it owns, or `none` for a
null pointer, which `AddDispatcher` stores like any other. -/
structure DispatcherLoad where
  dispatcher : Option Nat
  load_info : LoadInfo := {}
deriving DecidableEq, Repr

/-- The state of `class LoadMonitor`; the defaults are those of the constructor. -/
structure LoadMonitor where
  _dispatcher_loads : List DispatcherLoad := []
  _cpu_threshold : Nat := 80
  _queue_threshold : Nat := 1000
  _connection_threshold : Nat := 10000
  _running : Bool := true
deriving DecidableEq, Repr

namespace LoadMonitor

/-- The object built by `LoadMonitor::LoadMonitor()`. -/
def init : LoadMonitor := {}

def SetCpuThreshold (m : LoadMonitor) (threshold : Nat) : LoadMonitor :=
  { m with _cpu_threshold := threshold }

def SetQueueThreshold (m : LoadMonitor) (threshold : Nat) : LoadMonitor :=
  { m with _queue_threshold := threshold }

def SetConnectionThreshold (m : LoadMonitor) (threshold : Nat) : LoadMonitor :=
  { m with _connection_threshold := threshold }

/-- `LoadMonitor::AddDispatcher`: the pointer is stored as it comes, with a fresh
`LoadInfo()`. -/
def AddDispatcher (m : LoadMonitor) (dispatcher : Option Nat) : LoadMonitor :=
  { m with _dispatcher_loads := m._dispatcher_loads ++ [{ dispatcher := dispatcher }] }

/-- `LoadMonitor::RemoveDispatcher`: `find_if` locates the first entry of the
dispatcher and `erase` removes that one entry. -/
def RemoveDispatcher (m : LoadMonitor) (dispatcher : Option Nat) : LoadMonitor :=
  { m with _dispatcher_loads :=
      m._dispatcher_loads.eraseP (fun dl => decide (dl.dispatcher = dispatcher)) }

/-- The loop of `UpdateLoadInfo` and `UpdateDispatcherLoad`: rewrite the counters
of the first entry of the dispatcher and stop. -/
def updateFirst (dispatcher : Option Nat) (f : LoadInfo → LoadInfo) :
    List DispatcherLoad → List DispatcherLoad
  | [] => []
  | dl :: rest =>
    if dl.dispatcher = dispatcher then { dl with load_info := f dl.load_info } :: rest
    else dl :: updateFirst dispatcher f rest

def UpdateLoadInfo (m : LoadMonitor) (dispatcher : Option Nat)
    (connection_count cpu_usage queue_length total_bytes : Nat) : LoadMonitor :=
  let set : LoadInfo → LoadInfo := fun _ =>
    { connection_count := connection_count, cpu_usage := cpu_usage,
      queue_length := queue_length, total_bytes := total_bytes }
  { m with _dispatcher_loads := updateFirst dispatcher set m._dispatcher_loads }

def UpdateDispatcherLoad (m : LoadMonitor) (dispatcher : Option Nat) (connection_count : Nat) :
    LoadMonitor :=
  let set : LoadInfo → LoadInfo := fun li => { li with connection_count := connection_count }
  { m with _dispatcher_loads := updateFirst dispatcher set m._dispatcher_loads }

/-- One iteration of the scan of `GetLeastLoadedDispatcher`: `least_it` moves to
`it` when `it` has less CPU, or equal CPU and fewer connections. -/
def leastStep (least_it it : DispatcherLoad) : DispatcherLoad :=
  if it.load_info.cpu_usage < least_it.load_info.cpu_usage ∨
      (it.load_info.cpu_usage = least_it.load_info.cpu_usage ∧
        it.load_info.connection_count < least_it.load_info.connection_count) then it
  else least_it

/-- `LoadMonitor::GetLeastLoadedDispatcher`: `nullptr` on the empty registry,
otherwise the pointer held by the entry the scan ends on; `none` is the null
pointer. -/
def GetLeastLoadedDispatcher (m : LoadMonitor) : Option Nat :=
  match m._dispatcher_loads with
  | [] => none
  | first :: rest => (rest.foldl leastStep first).dispatcher

/-- One iteration of the scan of `GetMostLoadedDispatcher`. -/
def mostStep (most_it it : DispatcherLoad) : DispatcherLoad :=
  if it.load_info.cpu_usage > most_it.load_info.cpu_usage ∨
      (it.load_info.cpu_usage = most_it.load_info.cpu_usage ∧
        it.load_info.connection_count > most_it.load_info.connection_count) then it
  else most_it

/-- `LoadMonitor::GetMostLoadedDispatcher`: `nullptr` on the empty registry,
otherwise the pointer held by the entry the scan ends on; `none` is the null
pointer. -/
def GetMostLoadedDispatcher (m : LoadMonitor) : Option Nat :=
  match m._dispatcher_loads with
  | [] => none
  | first :: rest => (rest.foldl mostStep first).dispatcher

/-- The running maxima `(max_cpu, max_queue, max_conn)` of `NeedLoadBalance`
after one more entry. -/
def maxStep (acc : Nat × Nat × Nat) (dl : DispatcherLoad) : Nat × Nat × Nat :=
  (if dl.load_info.cpu_usage > acc.1 then dl.load_info.cpu_usage else acc.1,
   if dl.load_info.queue_length > acc.2.1 then dl.load_info.queue_length else acc.2.1,
   if dl.load_info.connection_count > acc.2.2 then dl.load_info.connection_count else acc.2.2)

/-- `LoadMonitor::NeedLoadBalance`. -/
def NeedLoadBalance (m : LoadMonitor) : Bool :=
  if m._dispatcher_loads.length < 2 then false
  else
    let acc := m._dispatcher_loads.foldl maxStep (0, 0, 0)
    decide (acc.1 > m._cpu_threshold) ||
      (decide (acc.2.1 > m._queue_threshold) ||
        decide (acc.2.2 > m._connection_threshold))

/-- An entry exceeds one of the three thresholds of the monitor. -/
def Overloaded (m : LoadMonitor) (dl : DispatcherLoad) : Prop :=
  dl.load_info.cpu_usage > m._cpu_threshold ∨
    dl.load_info.queue_length > m._queue_threshold ∨
    dl.load_info.connection_count > m._connection_threshold

instance (m : LoadMonitor) (dl : DispatcherLoad) : Decidable (Overloaded m dl) := by
  unfold Overloaded; infer_instance

/-- Lexicographic order on `(cpu_usage, connection_count)`: `a` is at most `b`. -/
def lexLE (a b : DispatcherLoad) : Prop :=
  a.load_info.cpu_usage < b.load_info.cpu_usage ∨
    (a.load_info.cpu_usage = b.load_info.cpu_usage ∧
      a.load_info.connection_count ≤ b.load_info.connection_count)

instance (a b : DispatcherLoad) : Decidable (lexLE a b) := by
  unfold lexLE; infer_instance

/-- A monitor with three dispatchers `0, 1, 2` that reported the given CPU usages. -/
def threeCpu (c0 c1 c2 : Nat) : LoadMonitor :=
  (((((init.AddDispatcher (some 0)).AddDispatcher (some 1)).AddDispatcher (some 2)).UpdateLoadInfo
    (some 0) 0 c0 0 0).UpdateLoadInfo (some 1) 0 c1 0 0).UpdateLoadInfo (some 2) 0 c2 0 0

/-- A monitor with default thresholds and exactly one registered dispatcher, which
reported 95% CPU. -/
def singleBusy : LoadMonitor :=
  (init.AddDispatcher (some 0)).UpdateLoadInfo (some 0) 0 95 0 0

/-- A monitor on which `AddDispatcher` was called with dispatcher 0 and with a
null pointer; dispatcher 0 then reported 50% CPU, the null entry keeps the
counters of `LoadInfo()`. -/
def nullIdle : LoadMonitor :=
  ((init.AddDispatcher (some 0)).AddDispatcher none).UpdateLoadInfo (some 0) 0 50 0 0

/-- A monitor on which `AddDispatcher` was called with dispatcher 0 and with a
null pointer; dispatcher 0 reported 10% CPU, and `UpdateLoadInfo` with the null
pointer stored 90% CPU in the null entry. -/
def nullBusy : LoadMonitor :=
  (((init.AddDispatcher (some 0)).AddDispatcher none).UpdateLoadInfo (some 0) 0 10 0
    0).UpdateLoadInfo none 0 90 0 0

end LoadMonitor

/-! ## LoadPredictor (`common/network/load_predictor.{h,cpp}`) -/

/-- A window entry, `struct LoadPoint`. -/
structure LoadPoint where
  load_score : ℚ
  timestamp_ms : Nat
deriving DecidableEq

/-- The state of `class LoadPredictor`, with the member initialisers as defaults.
The `mutable` caches are part of the state, so the `const` methods that fill
them return the new state as well. The deque `_load_window` is a list with the
front at the head. -/
structure LoadPredictor where
  _current_load : ℚ := 0
  _average_load : ℚ := 0
  _max_load : ℚ := 0
  _min_load : ℚ := 0
  _load_window : List LoadPoint := []
  _window_size : Nat := 100
  _window_duration_ms : Nat := 60000
  _smoothing_factor : ℚ := 0.3
  _last_ema : ℚ := 0
  _ema_initialized : Bool := false
  _slope : ℚ := 0
  _intercept : ℚ := 0
  _regression_initialized : Bool := false
deriving DecidableEq

namespace LoadPredictor

/-- The object built by `LoadPredictor::LoadPredictor()`. -/
def init : LoadPredictor := {}

def GetCurrentLoad (p : LoadPredictor) : ℚ := p._current_load
def GetAverageLoad (p : LoadPredictor) : ℚ := p._average_load
def GetMaxLoad (p : LoadPredictor) : ℚ := p._max_load
def GetMinLoad (p : LoadPredictor) : ℚ := p._min_load

def SetWindowSize (p : LoadPredictor) (size : Nat) : LoadPredictor :=
  { p with _window_size := size }

def SetSmoothingFactor (p : LoadPredictor) (alpha : ℚ) : LoadPredictor :=
  { p with _smoothing_factor := alpha }

/-- The local `cutoff_time` of `PruneOldData`: the `uint64_t` difference
`current_timestamp - _window_duration_ms`, which wraps around below zero. -/
def cutoff_time (current_timestamp window_duration_ms : Nat) : Nat :=
  (current_timestamp + 2 ^ 64 - window_duration_ms) % 2 ^ 64

/-- `LoadPredictor::PruneOldData`: `find_if` stops at the first point with
`timestamp_ms > cutoff_time`, and everything in front of it is erased. -/
def PruneOldData (p : LoadPredictor) (current_timestamp : Nat) : LoadPredictor :=
  if p._load_window.isEmpty then p
  else
    let cutoff := cutoff_time current_timestamp p._window_duration_ms
    { p with _load_window :=
        p._load_window.dropWhile (fun point => !decide (point.timestamp_ms > cutoff)) }

/-- The sum of the load scores, accumulated front to back from `0.0`. -/
def scoreSum (w : List LoadPoint) : ℚ :=
  w.foldl (fun sum point => sum + point.load_score) 0

/-- `LoadPredictor::UpdateLoad`. -/
def UpdateLoad (p : LoadPredictor) (load_score : ℚ) (timestamp_ms : Nat) : LoadPredictor :=
  let p1 := { p with _current_load := load_score }
  let p2 := PruneOldData p1 timestamp_ms
  let w := p2._load_window ++ [{ load_score := load_score, timestamp_ms := timestamp_ms }]
  let max_load :=
    if w.length = 1 then load_score
    else if load_score > p2._max_load then load_score else p2._max_load
  let min_load :=
    if w.length = 1 then load_score
    else if load_score < p2._min_load then load_score else p2._min_load
  { p2 with
    _load_window := w
    _max_load := max_load
    _min_load := min_load
    _average_load := scoreSum w / (w.length : ℚ)
    _ema_initialized := false
    _regression_initialized := false }

/-- The loop of `CalculateEMA` over the points after the first. -/
def emaLoop (alpha : ℚ) (ema : ℚ) (rest : List LoadPoint) : ℚ :=
  rest.foldl (fun ema point => alpha * point.load_score + (1 - alpha) * ema) ema

/-- `LoadPredictor::CalculateEMA`: the value returned and the state with the
cache filled. -/
def CalculateEMA (p : LoadPredictor) : ℚ × LoadPredictor :=
  match p._load_window with
  | [] => (0, p)
  | first :: rest =>
    if p._ema_initialized then (p._last_ema, p)
    else
      let ema := emaLoop p._smoothing_factor first.load_score rest
      (ema, { p with _last_ema := ema, _ema_initialized := true })

/-- The timestamp of `_load_window.back()` (`0` stands in on an empty window,
where the source never reads it). -/
def backTimestamp (w : List LoadPoint) : Nat :=
  match w.getLast? with
  | some point => point.timestamp_ms
  | none => 0

/-- `LoadPredictor::CalculateLinearRegression`: the value returned and the state
with the cached slope and intercept. A timestamp enters the sums as the exact
rational; the source converts the `uint64_t` to `double`, which is exact for
timestamps below `2 ^ 53`. -/
def CalculateLinearRegression (p : LoadPredictor) (future_time_ms : Nat) : ℚ × LoadPredictor :=
  if p._load_window.length < 2 then (p._current_load, p)
  else if p._regression_initialized then (p._intercept + p._slope * (future_time_ms : ℚ), p)
  else
    let n : ℚ := (p._load_window.length : ℚ)
    let mean_x := p._load_window.foldl (fun s point => s + (point.timestamp_ms : ℚ)) 0 / n
    let mean_y := p._load_window.foldl (fun s point => s + point.load_score) 0 / n
    let numerator := p._load_window.foldl
      (fun s point => s + ((point.timestamp_ms : ℚ) - mean_x) * (point.load_score - mean_y)) 0
    let denominator := p._load_window.foldl
      (fun s point => s + ((point.timestamp_ms : ℚ) - mean_x) * ((point.timestamp_ms : ℚ) - mean_x)) 0
    if denominator = 0 then (mean_y, p)
    else
      let slope := numerator / denominator
      let intercept := mean_y - slope * mean_x
      let future_timestamp : Nat := (backTimestamp p._load_window + future_time_ms) % 2 ^ 64
      (intercept + slope * (future_timestamp : ℚ),
        { p with _slope := slope, _intercept := intercept, _regression_initialized := true })

/-- `LoadPredictor::PredictLoad`: the forecast returned and the state left behind
(pruned window, filled caches). -/
def PredictLoad (p : LoadPredictor) (future_time_ms : Nat) : ℚ × LoadPredictor :=
  if p._load_window.isEmpty then (0, p)
  else
    let current_timestamp := backTimestamp p._load_window
    let p1 := PruneOldData p current_timestamp
    if p1._load_window.length < 2 then (p1._current_load, p1)
    else
      let r1 := CalculateEMA p1
      let r2 := CalculateLinearRegression r1.2 future_time_ms
      (0.7 * r1.1 + 0.3 * r2.1, r2.2)

/-- The state after a sequence of `UpdateLoad(load_score, timestamp_ms)` calls. -/
def feed (p : LoadPredictor) (calls : List (ℚ × Nat)) : LoadPredictor :=
  calls.foldl (fun q c => UpdateLoad q c.1 c.2) p

/-- The point stored by `UpdateLoad(c.1, c.2)`. -/
def toPoint (c : ℚ × Nat) : LoadPoint :=
  { load_score := c.1, timestamp_ms := c.2 }

/-- The window is in non-decreasing timestamp order, front to back. -/
def TimeOrdered (w : List LoadPoint) : Prop :=
  w.Pairwise (fun a b => a.timestamp_ms ≤ b.timestamp_ms)

instance (w : List LoadPoint) : Decidable (TimeOrdered w) := by
  unfold TimeOrdered; infer_instance

/-- After `UpdateLoad(s, t)` every retained point is younger than
`t - window_duration`, the difference taken in the integers. -/
def PrunedAfterUpdate (p : LoadPredictor) (s : ℚ) (t : Nat) : Prop :=
  ∀ point ∈ (p.UpdateLoad s t)._load_window,
    ¬ ((point.timestamp_ms : Int) ≤ (t : Int) - (p._window_duration_ms : Int))

/-- Two updates whose timestamps go backwards: 150000 ms, then 100000 ms. -/
def backwards : LoadPredictor :=
  feed init [(0, 150000), (0, 100000)]

/-- A time-ordered window of two points, at 100000 ms and 150000 ms. -/
def forwards : LoadPredictor :=
  feed init [(0, 100000), (0, 150000)]

/-- A burst of 101 updates, one per millisecond from 100000 ms on, all with load
score 0.5. -/
def burst : List (ℚ × Nat) :=
  (List.range 101).map (fun i => ((1 / 2 : ℚ), 100000 + i))

/-- Three updates 50 s apart with falling load scores 0.9, 0.5, 0.4: the third
update prunes the first point. -/
def stalePeak : LoadPredictor :=
  feed init [(9 / 10, 100000), (1 / 2, 150000), (2 / 5, 200000)]

/-- One update with load score 0.5 at timestamp 10 ms. -/
def earlyPoint : LoadPredictor :=
  feed init [(1 / 2, 10)]

/-- Two updates one second apart: score 0 at 100000 ms, score 1 at 101000 ms. -/
def twoPoints : LoadPredictor :=
  feed init [(0, 100000), (1, 101000)]

/-- The state `twoPoints` after one `PredictLoad(1000)` call. -/
def twoPointsPredicted : LoadPredictor :=
  (twoPoints.PredictLoad 1000).2

/-- The state `twoPointsPredicted` after `SetSmoothingFactor(0.5)`. -/
def twoPointsRetuned : LoadPredictor :=
  twoPointsPredicted.SetSmoothingFactor (1 / 2)

/-- Mean of the timestamps of the window. -/
def meanTime (w : List LoadPoint) : ℚ :=
  (w.map (fun point => (point.timestamp_ms : ℚ))).sum / (w.length : ℚ)

/-- Mean of the load scores of the window. -/
def meanScore (w : List LoadPoint) : ℚ :=
  (w.map (fun point => point.load_score)).sum / (w.length : ℚ)

/-- Ordinary-least-squares slope of load score against timestamp, in the words of
the specification: covariance over time-variance. -/
def olsSlope (w : List LoadPoint) : ℚ :=
  (w.map (fun point =>
      ((point.timestamp_ms : ℚ) - meanTime w) * (point.load_score - meanScore w))).sum /
    (w.map (fun point => ((point.timestamp_ms : ℚ) - meanTime w) ^ 2)).sum

/-- Ordinary-least-squares intercept, in the words of the specification. -/
def olsIntercept (w : List LoadPoint) : ℚ :=
  meanScore w - olsSlope w * meanTime w

/-- All timestamps of the window are equal (zero time-variance). -/
def SameTime (w : List LoadPoint) : Prop :=
  ∀ a ∈ w, ∀ b ∈ w, a.timestamp_ms = b.timestamp_ms

instance (w : List LoadPoint) : Decidable (SameTime w) := by
  unfold SameTime; infer_instance

/-- The regression forecast in the words of the specification: the least-squares
line extrapolated to `last_timestamp + horizon`, or the mean load score when all
timestamps are equal. -/
def regressionForecast (w : List LoadPoint) (horizon : Nat) : ℚ :=
  if SameTime w then meanScore w
  else olsIntercept w + olsSlope w * ((backTimestamp w : ℚ) + (horizon : ℚ))

/-- The exponential moving average in the words of the specification:
`e_0 = p_0.score`, `e_i = alpha * p_i.score + (1 - alpha) * e_(i-1)`; this is `e_i`.
Past the end of the window the value stays at the last `e_i`. -/
def emaAt (alpha : ℚ) (w : List LoadPoint) : Nat → ℚ
  | 0 =>
    match w[0]? with
    | some point => point.load_score
    | none => 0
  | i + 1 =>
    match w[i + 1]? with
    | some point => alpha * point.load_score + (1 - alpha) * emaAt alpha w i
    | none => emaAt alpha w i

/-- The exponential moving average of the whole window, `e_(n-1)`. -/
def emaSpec (alpha : ℚ) (w : List LoadPoint) : ℚ :=
  emaAt alpha w (w.length - 1)

/-- The values returned by consecutive `PredictLoad` calls with the given
horizons, no update in between. -/
def predictAll (p : LoadPredictor) : List Nat → List ℚ
  | [] => []
  | h :: hs => (p.PredictLoad h).1 :: predictAll (p.PredictLoad h).2 hs

/-- Three updates with the constant load score 0.25 at 10 ms, 20 ms and 30 ms. -/
def constantEarly : LoadPredictor :=
  feed init [(1 / 4, 10), (1 / 4, 20), (1 / 4, 30)]

/-- The state with both caches marked invalid, as `UpdateLoad` leaves them: a
`PredictLoad` on it recomputes everything from the window. -/
def clearCaches (p : LoadPredictor) : LoadPredictor :=
  { p with _ema_initialized := false, _regression_initialized := false }

/-- One update with load score 0.7 at timestamp 59999 ms, one millisecond short
of the window duration. -/
def justBelowDuration : LoadPredictor :=
  init.UpdateLoad (7 / 10) 59999

/-- The state of a predictor that was fed the constant load score `c` and whose
window is stable under the pruning of `PredictLoad`: every point carries `c`, no
point is older than the cutoff of the latest timestamp, and whatever is cached
was computed from such a window. -/
def ConstInv (c : ℚ) (p : LoadPredictor) : Prop :=
  p._load_window ≠ [] ∧ (∀ point ∈ p._load_window, point.load_score = c) ∧
  p._current_load = c ∧
  (∀ point ∈ p._load_window,
    cutoff_time (backTimestamp p._load_window) p._window_duration_ms < point.timestamp_ms) ∧
  (p._ema_initialized = true → p._last_ema = c) ∧
  (p._regression_initialized = true → p._slope = 0 ∧ p._intercept = c)

end LoadPredictor

/-! ## Dispatcher (`cppnet/dispatcher.{h,cpp}`) and ConnectionMigrator
(`common/network/connection_migrator.{h,cpp}`)

Dispatchers and sockets are heap objects reached through shared pointers: a
pointer is the identity (`Nat`) of its object, a nullable pointer argument is an
`Option Nat`, and the objects live in a `World`. -/

/-- The values of `enum class MigrationState`. -/
inductive MigrationState where
  | kIdle
  | kPreparing
  | kMigrating
  | kCompleted
  | kFailed
deriving DecidableEq, Repr

/-- Modelled from the spec: the part of `RWSocket` that the migrator reads and
writes. The class is declared in `cppnet/socket/rw_socket.h`, which is not among
the sources; the specification gives a socket an identifier (`GetSocket`), a
rebindable dispatcher reference (`SetDispatcher`), a rebindable event-interest
handle (`SetEventActions`) and the migrating marker (`SetContext`). -/
structure RWSocket where
  _sock : Nat
  _dispatcher : Option Nat := none
  _event_actions : Option Nat := none
  _context : Option Nat := none
deriving DecidableEq, Repr

/-- The closures that the migrator posts to a dispatcher, one constructor per
lambda of `connection_migrator.cpp`, with the captured context fields. A `Task`
of the source is any `std::function<void()>`; `post` is a caller's closure whose
body calls `PostTask(task)` on a dispatcher. -/
inductive Task where
  | stopPending (socket : Nat)
  | removeConnection (dispatcher socket : Nat)
  | addConnection (dispatcher socket : Nat)
  | removeEvents (dispatcher socket : Nat)
  | addEvents (dispatcher socket : Nat)
  | resumeRead (socket : Nat)
  | post (dispatcher : Nat) (task : Task)
deriving DecidableEq, Repr

/-- The state of `class Dispatcher` that tasks and the connection registry use:
the task list, the event-actions handle, the connection map (socket descriptor
to socket) and the connection count. -/
structure Dispatcher where
  _task_list : List Task := []
  _event_actions : Option Nat := none
  _connection_map : AList (fun _ : Nat => Nat) := ∅
  _connection_count : Nat := 0

/-- A record of `struct MigrationContext`; the constructor sets `kIdle`. -/
structure MigrationContext where
  socket : Option Nat := none
  source_dispatcher : Option Nat := none
  target_dispatcher : Option Nat := none
  state : MigrationState := .kIdle
deriving DecidableEq, Repr

/-- The state of `class ConnectionMigrator` (`common/network`): its own address,
which `PrepareMigration` stores as the socket context, and the migration map. -/
structure ConnectionMigrator where
  self : Nat := 0
  _migration_map : Nat → Option MigrationContext := fun _ => none
  _migration_in_progress : Bool := false

/-- The objects of one process: dispatchers and sockets by identity, the load
monitor that `CppNetBase::GetLoadMonitor` hands out (`none` when the base is gone
or has no monitor) and the connection migrator. -/
structure World where
  dispatchers : Nat → Dispatcher
  sockets : Nat → RWSocket
  load_monitor : Option LoadMonitor := none
  migrator : ConnectionMigrator := {}

namespace World

def setDispatcher (w : World) (d : Nat) (x : Dispatcher) : World :=
  { w with dispatchers := Function.update w.dispatchers d x }

def setSocket (w : World) (s : Nat) (x : RWSocket) : World :=
  { w with sockets := Function.update w.sockets s x }

/-- The assignment `_migration_map[sock_fd] = ctx`; the map entry shares the
context, so later writes to the context are writes to the entry. -/
def storeContext (w : World) (sock_fd : Nat) (ctx : MigrationContext) : World :=
  { w with migrator :=
      { w.migrator with
        _migration_map := Function.update w.migrator._migration_map sock_fd (some ctx) } }

end World

namespace Dispatcher

/-- `Dispatcher::PostTask`: append to the task list (the wake-up of the poller
changes no state). -/
def PostTask (w : World) (d : Nat) (task : Task) : World :=
  w.setDispatcher d
    { w.dispatchers d with _task_list := (w.dispatchers d)._task_list ++ [task] }

/-- The block of `AddConnection` and `RemoveConnection` that pushes the
connection count to the load monitor, when there is one. -/
def reportLoad (w : World) (d : Nat) : World :=
  match w.load_monitor with
  | none => w
  | some monitor =>
    { w with
      load_monitor :=
        some (monitor.UpdateDispatcherLoad (some d) (w.dispatchers d)._connection_count) }

/-- `Dispatcher::AddConnection(sockfd, sock)`. -/
def AddConnection (w : World) (d sockfd sock : Nat) : World :=
  reportLoad
    (w.setDispatcher d
      { w.dispatchers d with
        _connection_map := (w.dispatchers d)._connection_map.insert sockfd sock
        _connection_count := ((w.dispatchers d)._connection_count + 1) % 2 ^ 32 }) d

/-- `Dispatcher::RemoveConnection(sockfd)`. -/
def RemoveConnection (w : World) (d sockfd : Nat) : World :=
  match (w.dispatchers d)._connection_map.lookup sockfd with
  | none => w
  | some _ =>
    reportLoad
      (w.setDispatcher d
        { w.dispatchers d with
          _connection_map := (w.dispatchers d)._connection_map.erase sockfd
          _connection_count := ((w.dispatchers d)._connection_count + 2 ^ 32 - 1) % 2 ^ 32 }) d

def GetConnectionCount (w : World) (d : Nat) : Nat :=
  (w.dispatchers d)._connection_count

end Dispatcher

/-- Run the body of a posted closure. The migrator calls `RemoveConnection` and
`AddConnection` with the socket alone; the registry is keyed by the socket's
descriptor, so the call is the one with `sock->GetSocket()` as key. The bodies of
`stopPending`, `removeEvents` and `addEvents` are empty in the source, and
`resumeRead` is `socket->Read()`, I/O that touches no registry. -/
def Task.run (w : World) : Task → World
  | .stopPending _ => w
  | .removeConnection d s => Dispatcher.RemoveConnection w d (w.sockets s)._sock
  | .addConnection d s => Dispatcher.AddConnection w d (w.sockets s)._sock s
  | .removeEvents _ _ => w
  | .addEvents _ _ => w
  | .resumeRead _ => w
  | .post d task => Dispatcher.PostTask w d task

/-- `Dispatcher::DoTask`: swap the task list out, leaving it empty, and run the
closures taken in order. -/
def Dispatcher.DoTask (w : World) (d : Nat) : World :=
  let func_vec := (w.dispatchers d)._task_list
  func_vec.foldl Task.run (w.setDispatcher d { w.dispatchers d with _task_list := [] })

namespace ConnectionMigrator

/-- `ConnectionMigrator::PrepareMigration`: the success flag, the world and the
context afterwards. A null source dispatcher would be dereferenced here; the
only caller has checked it, and the model reports failure for it. -/
def PrepareMigration (w : World) (ctx : MigrationContext) : Bool × World × MigrationContext :=
  match ctx.socket, ctx.source_dispatcher with
  | some s, some src =>
    let w1 := w.setSocket s { w.sockets s with _context := some w.migrator.self }
    let w2 := Dispatcher.PostTask w1 src (.stopPending s)
    (true, w2, { ctx with state := .kMigrating })
  | _, _ => (false, w, ctx)

/-- `ConnectionMigrator::MigrateSocket`. -/
def MigrateSocket (w : World) (ctx : MigrationContext) : Bool × World × MigrationContext :=
  match ctx.socket, ctx.source_dispatcher, ctx.target_dispatcher with
  | some s, some src, some tgt =>
    let w1 := Dispatcher.PostTask w src (.removeConnection src s)
    let w2 := Dispatcher.PostTask w1 tgt (.addConnection tgt s)
    let w3 := w2.setSocket s { w2.sockets s with _dispatcher := some tgt }
    let w4 := w3.setSocket s
      { w3.sockets s with _event_actions := (w3.dispatchers tgt)._event_actions }
    (true, w4, ctx)
  | _, _, _ => (false, w, ctx)

/-- `ConnectionMigrator::MigrateBuffers`. -/
def MigrateBuffers (w : World) (ctx : MigrationContext) : Bool × World × MigrationContext :=
  match ctx.socket with
  | some _ => (true, w, ctx)
  | none => (false, w, ctx)

/-- `ConnectionMigrator::MigrateEvents`. -/
def MigrateEvents (w : World) (ctx : MigrationContext) : Bool × World × MigrationContext :=
  match ctx.socket, ctx.source_dispatcher, ctx.target_dispatcher with
  | some s, some src, some tgt =>
    let w1 := Dispatcher.PostTask w src (.removeEvents src s)
    let w2 := Dispatcher.PostTask w1 tgt (.addEvents tgt s)
    (true, w2, ctx)
  | _, _, _ => (false, w, ctx)

/-- `ConnectionMigrator::CompleteMigration`. A null target dispatcher would be
dereferenced here; the model reports failure for it. -/
def CompleteMigration (w : World) (ctx : MigrationContext) : Bool × World × MigrationContext :=
  match ctx.socket, ctx.target_dispatcher with
  | some s, some tgt =>
    let w1 := w.setSocket s { w.sockets s with _context := none }
    let w2 := Dispatcher.PostTask w1 tgt (.resumeRead s)
    (true, w2, { ctx with state := .kCompleted })
  | _, _ => (false, w, ctx)

/-- The `try` block of `MigrateConnection`: the five steps in order, the first
failing step throws and skips the rest. The first component is the outcome (the
success flag, the world and the context when the block is left); the second is
the value of `ctx->state` after each step performed, in order. -/
def runStepsLogged (w : World) (ctx : MigrationContext) :
    (Bool × World × MigrationContext) × List MigrationState :=
  let r1 := PrepareMigration w ctx
  if !r1.1 then ((false, r1.2), [r1.2.2.state])
  else
    let r2 := MigrateSocket r1.2.1 r1.2.2
    if !r2.1 then ((false, r2.2), [r1.2.2.state, r2.2.2.state])
    else
      let r3 := MigrateBuffers r2.2.1 r2.2.2
      if !r3.1 then ((false, r3.2), [r1.2.2.state, r2.2.2.state, r3.2.2.state])
      else
        let r4 := MigrateEvents r3.2.1 r3.2.2
        if !r4.1 then
          ((false, r4.2), [r1.2.2.state, r2.2.2.state, r3.2.2.state, r4.2.2.state])
        else
          let r5 := CompleteMigration r4.2.1 r4.2.2
          if !r5.1 then
            ((false, r5.2),
              [r1.2.2.state, r2.2.2.state, r3.2.2.state, r4.2.2.state, r5.2.2.state])
          else
            ((true, r5.2),
              [r1.2.2.state, r2.2.2.state, r3.2.2.state, r4.2.2.state, r5.2.2.state])

/-- The outcome of the `try` block of `MigrateConnection`: the success flag, the
world and the context when the block is left. -/
def runSteps (w : World) (ctx : MigrationContext) : Bool × World × MigrationContext :=
  (runStepsLogged w ctx).1

/-- The check of `MigrateConnection` under the map lock: the map holds a context
for the descriptor that is neither completed nor failed. -/
def blocked (m : ConnectionMigrator) (sock_fd : Nat) : Bool :=
  match m._migration_map sock_fd with
  | none => false
  | some ctx => decide (ctx.state ≠ .kCompleted) && decide (ctx.state ≠ .kFailed)

/-- The part of `MigrateConnection` behind the two checks, for socket `s`, source
`src` and target `tgt`: the context is constructed, filled in and stored in the
map, the `try` block runs, and the final state is assigned. The first component
is the value returned and the world afterwards. The second is the sequence of
values that `ctx->state` takes: the value set by the constructor of the context,
the value assigned before the map insert, the value after each step performed,
and the value assigned last (after the `try` block, or in the `catch` block). -/
def migrateLogged (w : World) (s src tgt : Nat) : (Bool × World) × List MigrationState :=
  let sock_fd := (w.sockets s)._sock
  let made : MigrationContext := {}
  let ctx : MigrationContext :=
    { made with
      socket := some s, source_dispatcher := some src, target_dispatcher := some tgt,
      state := .kPreparing }
  let r := runStepsLogged (w.storeContext sock_fd ctx) ctx
  let state := if r.1.1 then MigrationState.kCompleted else MigrationState.kFailed
  ((r.1.1, r.1.2.1.storeContext sock_fd { r.1.2.2 with state := state }),
    [made.state, ctx.state] ++ r.2 ++ [state])

/-- `ConnectionMigrator::MigrateConnection`: the value returned and the world
afterwards. -/
def MigrateConnection (w : World) (sock source_dispatcher target_dispatcher : Option Nat) :
    Bool × World :=
  match sock, source_dispatcher, target_dispatcher with
  | some s, some src, some tgt =>
    if blocked w.migrator (w.sockets s)._sock then (false, w)
    else (migrateLogged w s src tgt).1
  | _, _, _ => (false, w)

/-- `ConnectionMigrator::IsMigrationInProgress`. -/
def IsMigrationInProgress (m : ConnectionMigrator) (sock_fd : Nat) : Bool :=
  match m._migration_map sock_fd with
  | none => false
  | some ctx => decide (ctx.state = .kPreparing) || decide (ctx.state = .kMigrating)

end ConnectionMigrator

/-- The connection with descriptor `sock_fd` is in the registry of dispatcher `d`. -/
def Registered (w : World) (d sock_fd : Nat) : Prop :=
  sock_fd ∈ (w.dispatchers d)._connection_map

instance (w : World) (d sock_fd : Nat) : Decidable (Registered w d sock_fd) := by
  unfold Registered; infer_instance

/-- One step of the system: a `MigrateConnection` call, or one task drain
(`DoTask`) of a dispatcher. -/
inductive Action where
  | migrate (sock source_dispatcher target_dispatcher : Option Nat)
  | drain (dispatcher : Nat)
deriving DecidableEq, Repr

/-- Perform one step. -/
def Action.run (w : World) : Action → World
  | .migrate sock src tgt => (ConnectionMigrator.MigrateConnection w sock src tgt).2
  | .drain d => Dispatcher.DoTask w d

/-- Perform a sequence of steps, first to last. -/
def runActions (w : World) (steps : List Action) : World :=
  steps.foldl Action.run w

/-- A world with two idle dispatchers, 1 and 2, and one socket 7 with descriptor
42 that is registered with dispatcher 1 only. -/
def oneConnection : World :=
  { dispatchers := fun d =>
      if d = 1 then
        { _event_actions := some 101, _connection_map := AList.singleton 42 7,
          _connection_count := 1 }
      else if d = 2 then { _event_actions := some 102 }
      else {}
    sockets := fun _ => { _sock := 42, _dispatcher := some 1, _event_actions := some 101 } }

/-- The world `oneConnection` after `MigrateConnection(socket 7, dispatcher 1,
dispatcher 2)`. -/
def oneConnectionMigrated : World :=
  (ConnectionMigrator.MigrateConnection oneConnection (some 7) (some 1) (some 2)).2

/-- The world `oneConnection` while a migration of descriptor 42 is under way: the
map holds a context in state `kMigrating`. -/
def oneConnectionMigrating : World :=
  oneConnection.storeContext 42
    { socket := some 7, source_dispatcher := some 1, target_dispatcher := some 2,
      state := .kMigrating }

namespace Dispatcher

/-- A run of `PostTask` calls on one dispatcher, first to last. -/
def postAll (w : World) (d : Nat) (tasks : List Task) : World :=
  tasks.foldl (fun v task => PostTask v d task) w

/-- The closures that running `task` posts to dispatcher `d`. -/
def postedBy (d : Nat) : Task → List Task
  | .post d' task => if d' = d then [task] else []
  | _ => []

/-- The number of entries of the connection registry of dispatcher `d`. -/
def registrySize (w : World) (d : Nat) : Nat :=
  (w.dispatchers d)._connection_map.entries.length

/-- A world whose dispatchers are in their initial state (empty registry, count
0), with a load monitor that has dispatcher 0 registered. -/
def fresh : World :=
  { dispatchers := fun _ => {}, sockets := fun _ => { _sock := 42 },
    load_monitor := some (LoadMonitor.init.AddDispatcher (some 0)) }

end Dispatcher

namespace ConnectionMigrator

/-- The arrows of the state machine `Idle → Preparing → Migrating →
{Completed | Failed}` of the specification. -/
def Edge : MigrationState → MigrationState → Prop
  | .kIdle, .kPreparing => True
  | .kPreparing, .kMigrating => True
  | .kMigrating, .kCompleted => True
  | .kMigrating, .kFailed => True
  | _, _ => False

instance (a b : MigrationState) : Decidable (Edge a b) := by
  cases a <;> cases b <;> unfold Edge <;> infer_instance

/-- A write of `ctx->state` that takes the state from `a` to `b` stays on the
state (`a = b`) or follows an arrow of the machine. -/
def Follows (a b : MigrationState) : Prop :=
  a = b ∨ Edge a b

instance (a b : MigrationState) : Decidable (Follows a b) := by
  unfold Follows; infer_instance

/-- The successive values of `ctx->state` of the context that a
`MigrateConnection(s, src, tgt)` call creates, as the call itself produces them. -/
def contextHistory (w : World) (s src tgt : Nat) : List MigrationState :=
  (migrateLogged w s src tgt).2

/-- No context held by the migration map is in state `kIdle`: a context enters
the map only after its state was set to `kPreparing`. -/
def NoIdleContext (w : World) : Prop :=
  ∀ sock_fd ctx, w.migrator._migration_map sock_fd = some ctx → ctx.state ≠ .kIdle

/-- The six `PostTask` calls of a migration of socket `s` from `src` to `tgt`, in
the order of the phases. -/
def migrationPosts (s src tgt : Nat) : List (Nat × Task) :=
  [(src, .stopPending s), (src, .removeConnection src s), (tgt, .addConnection tgt s),
   (src, .removeEvents src s), (tgt, .addEvents tgt s), (tgt, .resumeRead s)]

end ConnectionMigrator

/-! ## The load-driven ConnectionMigrator (`cppnet/connection_migrator.{h,cpp}`)

The class of `cppnet/connection_migrator.h` is named `ConnectionMigrator` as
well; its embedding is `LoadDrivenMigrator`. Its `_load_monitor` is the monitor
of the `CppNetBase`, the `load_monitor` of the world. -/

/-- The own state of the load-driven migrator: the `_running` flag, false after
construction. -/
structure LoadDrivenMigrator where
  _running : Bool := false
deriving DecidableEq, Repr

namespace LoadDrivenMigrator

def Start (m : LoadDrivenMigrator) : LoadDrivenMigrator :=
  { m with _running := true }

def Stop (m : LoadDrivenMigrator) : LoadDrivenMigrator :=
  { m with _running := false }

/-- `ConnectionMigrator::UpdateSocketDispatcher`. -/
def UpdateSocketDispatcher (w : World) (socket new_dispatcher : Option Nat) : World :=
  match socket with
  | some s => w.setSocket s { w.sockets s with _dispatcher := new_dispatcher }
  | none => w

/-- `ConnectionMigrator::MigrateSingleConnection`: the value returned and the
world afterwards. -/
def MigrateSingleConnection (w : World) (socket target_dispatcher : Option Nat) : Bool × World :=
  match socket, target_dispatcher with
  | some s, some tgt =>
    match (w.sockets s)._dispatcher with
    | none => (false, w)
    | some src =>
      if src = tgt then (false, w)
      else
        match (w.sockets s)._event_actions with
        | none => (false, w)
        | some _ =>
          let w1 := UpdateSocketDispatcher w (some s) (some tgt)
          match (w1.dispatchers tgt)._event_actions with
          | none => (false, w1)
          | some _ => (true, w1)
  | _, _ => (false, w)

/-- `ConnectionMigrator::MigrateConnection` of the load-driven migrator: the
locked call of `MigrateSingleConnection`, result dropped. -/
def MigrateConnection (w : World) (socket target_dispatcher : Option Nat) : World :=
  (MigrateSingleConnection w socket target_dispatcher).2

/-- `ConnectionMigrator::SelectConnectionsToMigrate`: the source returns an empty
vector. -/
def SelectConnectionsToMigrate (_w : World) (_source_dispatcher _count : Nat) : List Nat :=
  []

/-- `ConnectionMigrator::MigrateConnectionsFromOverloadedDispatcher`. Without a
load monitor the source would dereference a null pointer; the model leaves the
world alone. -/
def MigrateConnectionsFromOverloadedDispatcher (m : LoadDrivenMigrator) (w : World) : World :=
  if !m._running then w
  else
    match w.load_monitor with
    | none => w
    | some monitor =>
      match monitor.GetMostLoadedDispatcher with
      | none => w
      | some source_dispatcher =>
        match monitor.GetLeastLoadedDispatcher with
        | none => w
        | some target_dispatcher =>
          if source_dispatcher = target_dispatcher then w
          else
            (SelectConnectionsToMigrate w source_dispatcher 10).foldl
              (fun v socket => (MigrateSingleConnection v (some socket) (some target_dispatcher)).2) w

/-- Every dispatcher of the world holds event actions. Both constructors of
`Dispatcher` assign `MakeEventActions()` to `_event_actions` and call `Init()` on
it at once, the member is private and no member function assigns it again, so
`GetEventActions()` of a constructed dispatcher is never null. -/
def EventActionsSet (w : World) : Prop :=
  ∀ d, (w.dispatchers d)._event_actions ≠ none

/-- Three dispatchers 0, 1, 2 that reported CPU 20, 95 and 40; dispatcher 1 owns
one connection (descriptor 42, socket 7) and reported the count 1. -/
def busyCluster : World :=
  { dispatchers := fun d =>
      if d = 1 then
        { _event_actions := some 101, _connection_map := AList.singleton 42 7,
          _connection_count := 1 }
      else { _event_actions := some (100 + d) }
    sockets := fun _ => { _sock := 42, _dispatcher := some 1, _event_actions := some 101 }
    load_monitor := some ((LoadMonitor.threeCpu 20 95 40).UpdateDispatcherLoad (some 1) 1) }

end LoadDrivenMigrator

/-! ## AdaptiveLimiter (`cppnet/flow/flow_monitor.{h,cpp}`) -/

/-- The state of `class AdaptiveLimiter`, with the values of the constructor; the
`_last_update` time stamp is left out. -/
structure AdaptiveLimiter where
  _base_limit : Nat := 1000
  _max_limit : Nat := 10000
  _min_limit : Nat := 100
  _current_limit : Nat := 1000
  _total_bytes_in : Nat := 0
  _total_bytes_out : Nat := 0
  _connection_count : Nat := 0
deriving DecidableEq, Repr

namespace AdaptiveLimiter

/-- The object built by `AdaptiveLimiter::AdaptiveLimiter()`. -/
def init : AdaptiveLimiter := {}

def SetBaseLimit (a : AdaptiveLimiter) (limit : Nat) : AdaptiveLimiter :=
  { a with _base_limit := limit }

def SetMaxLimit (a : AdaptiveLimiter) (limit : Nat) : AdaptiveLimiter :=
  { a with _max_limit := limit }

def SetMinLimit (a : AdaptiveLimiter) (limit : Nat) : AdaptiveLimiter :=
  { a with _min_limit := limit }

/-- The local `new_limit` of `UpdateGlobalStats` before clamping: the `uint32_t`
product `_base_limit * (1 + _connection_count / 1000)`, which wraps around at
`2 ^ 32`. -/
def scaledLimit (base_limit connection_count : Nat) : Nat :=
  (base_limit * ((1 + connection_count / 1000) % 2 ^ 32)) % 2 ^ 32

/-- `AdaptiveLimiter::UpdateGlobalStats`. -/
def UpdateGlobalStats (a : AdaptiveLimiter) (total_bytes_in total_bytes_out connection_count : Nat) :
    AdaptiveLimiter :=
  let new_limit := scaledLimit a._base_limit connection_count
  { a with
    _total_bytes_in := total_bytes_in
    _total_bytes_out := total_bytes_out
    _connection_count := connection_count
    _current_limit := max a._min_limit (min new_limit a._max_limit) }

/-- `AdaptiveLimiter::GetCurrentLimit`. -/
def GetCurrentLimit (a : AdaptiveLimiter) : Nat :=
  a._current_limit

end AdaptiveLimiter

/-! # Theorems -/

/-! ## LoadMetrics -/

namespace LoadMetrics

theorem clamp_mem (v : ℚ) : 0 ≤ min 1 (max 0 v) ∧ min 1 (max 0 v) ≤ 1 :=
  ⟨le_min zero_le_one (le_max_left 0 v), min_le_left 1 _⟩

theorem ratiosInRange_init : RatiosInRange init := by
  simp [RatiosInRange, init]

theorem ratiosInRange_run (m : LoadMetrics) (c : Setter) (h : RatiosInRange m) :
    RatiosInRange (c.run m) := by
  obtain ⟨h1, h2, h3, h4, h5, h6⟩ := h
  cases c <;>
    simp only [Setter.run, UpdateCPULoad, UpdateIOWaitTime, UpdateConnectionCount,
      UpdateMemoryPoolUsage, UpdateTaskQueueLength, UpdatePacketRate, UpdateBandwidthUsage,
      UpdateContextSwitchRate, UpdateCacheHitRate, UpdateErrorRate, UpdateThreadUtilization,
      UpdateResponseTime, RatiosInRange] <;>
    exact ⟨by first | exact h1 | exact clamp_mem _, by first | exact h2 | exact clamp_mem _,
      by first | exact h3 | exact clamp_mem _, by first | exact h4 | exact clamp_mem _,
      by first | exact h5 | exact clamp_mem _, by first | exact h6 | exact clamp_mem _⟩

theorem ratiosInRange_foldl (calls : List Setter) (m : LoadMetrics) (h : RatiosInRange m) :
    RatiosInRange (calls.foldl Setter.run m) := by
  induction calls generalizing m with
  | nil => exact h
  | cons c cs ih => exact ih _ (ratiosInRange_run m c h)

theorem ratiosInRange_afterSetters (calls : List Setter) : RatiosInRange (afterSetters calls) :=
  ratiosInRange_foldl calls init ratiosInRange_init

theorem norm_mem (n : Nat) (d : ℚ) (hd : 0 < d) :
    0 ≤ min 1 ((n : ℚ) / d) ∧ min 1 ((n : ℚ) / d) ≤ 1 :=
  ⟨le_min zero_le_one (div_nonneg (Nat.cast_nonneg n) hd.le), min_le_left 1 _⟩

/-- On a state whose ratio fields are in range, the weighted sum is already in
`[0, 1]`: the final clamp of `CalculateLoadScore` does not change it. -/
theorem weightedSum_mem (m : LoadMetrics) (h : RatiosInRange m) :
    0 ≤ weightedSum m ∧ weightedSum m ≤ 1 := by
  obtain ⟨⟨a1, a2⟩, ⟨b1, b2⟩, ⟨c1, c2⟩, ⟨d1, d2⟩, ⟨e1, e2⟩, ⟨f1, f2⟩⟩ := h
  have k1 := norm_mem m._context_switch_rate 100000 (by norm_num)
  have k2 := norm_mem m._io_wait_time 1000000 (by norm_num)
  have k3 := norm_mem m._packet_rate 1000000 (by norm_num)
  have k4 := norm_mem m._connection_count 10000 (by norm_num)
  have k5 := norm_mem m._task_queue_length 1000 (by norm_num)
  have k6 := norm_mem m._response_time 1000000 (by norm_num)
  simp only [weightedSum, _weight_cpu_load, _weight_thread_utilization,
    _weight_context_switch_rate, _weight_io_wait_time, _weight_packet_rate,
    _weight_bandwidth_usage, _weight_connection_count, _weight_memory_pool_usage,
    _weight_cache_hit_rate, _weight_task_queue_length, _weight_response_time,
    _weight_error_rate]
  norm_num
  constructor <;> linarith [k1.1, k1.2, k2.1, k2.2, k3.1, k3.2, k4.1, k4.2, k5.1, k5.2, k6.1, k6.2]

/-- C1: on every state reached from the initial one by any sequence of the twelve
`Update*` setters, with arbitrary arguments, `CalculateLoadScore()` returns a
value `s` with `0 ≤ s ≤ 1`. -/
theorem CalculateLoadScore_in_unit_interval (calls : List Setter) :
    0 ≤ (afterSetters calls).CalculateLoadScore ∧ (afterSetters calls).CalculateLoadScore ≤ 1 :=
  clamp_mem (weightedSum (afterSetters calls))

theorem clamp_eq_clamp01 (v : ℚ) : min 1 (max 0 v) = clamp01 v := by
  unfold clamp01
  split_ifs with h1 h2
  · rw [max_eq_left h1.le]; exact min_eq_right zero_le_one
  · rw [max_eq_right (by linarith), min_eq_left h2.le]
  · rw [max_eq_right (not_lt.1 h1), min_eq_right (not_lt.1 h2)]

/-- C13: after each of the six ratio-type setters, called with any input `v`,
the matching getter returns `min(1, max(0, v))`, which is `v` itself when
`0 ≤ v ≤ 1`, `0` when `v < 0` and `1` when `v > 1`. -/
theorem ratio_setters_clamp (m : LoadMetrics) (v : ℚ) :
    (m.UpdateCPULoad v).GetCPULoad = min 1 (max 0 v) ∧
    (m.UpdateThreadUtilization v).GetThreadUtilization = min 1 (max 0 v) ∧
    (m.UpdateBandwidthUsage v).GetBandwidthUsage = min 1 (max 0 v) ∧
    (m.UpdateMemoryPoolUsage v).GetMemoryPoolUsage = min 1 (max 0 v) ∧
    (m.UpdateCacheHitRate v).GetCacheHitRate = min 1 (max 0 v) ∧
    (m.UpdateErrorRate v).GetErrorRate = min 1 (max 0 v) ∧
    min 1 (max 0 v) = clamp01 v :=
  ⟨rfl, rfl, rfl, rfl, rfl, rfl, clamp_eq_clamp01 v⟩

/-- C14: on every stored state `CalculateLoadScore()` is the clamp to `[0, 1]` of
the fixed-weight sum of the twelve normalized signals, with the weights and
saturation constants of the specification. -/
theorem CalculateLoadScore_formula (m : LoadMetrics) :
    m.CalculateLoadScore =
      clamp01 (0.15 * m._cpu_load + 0.10 * m._thread_utilization +
        0.05 * min 1 ((m._context_switch_rate : ℚ) / 100000) +
        0.10 * min 1 ((m._io_wait_time : ℚ) / 1000000) +
        0.10 * min 1 ((m._packet_rate : ℚ) / 1000000) +
        0.05 * m._bandwidth_usage +
        0.15 * min 1 ((m._connection_count : ℚ) / 10000) +
        0.10 * m._memory_pool_usage +
        0.05 * (1 - m._cache_hit_rate) +
        0.05 * min 1 ((m._task_queue_length : ℚ) / 1000) +
        0.05 * min 1 ((m._response_time : ℚ) / 1000000) +
        0.05 * m._error_rate) := by
  rw [← clamp_eq_clamp01]
  simp only [CalculateLoadScore, weightedSum, _weight_cpu_load, _weight_thread_utilization,
    _weight_context_switch_rate, _weight_io_wait_time, _weight_packet_rate,
    _weight_bandwidth_usage, _weight_connection_count, _weight_memory_pool_usage,
    _weight_cache_hit_rate, _weight_task_queue_length, _weight_response_time,
    _weight_error_rate, zero_add]
  congr 2
  ring

theorem norm_saturated (n : Nat) (d : Nat) (hd : 0 < d) (h : d ≤ n) :
    min 1 ((n : ℚ) / (d : ℚ)) = 1 := by
  apply min_eq_left
  rw [le_div_iff₀ (by exact_mod_cast hd)]
  simpa using (by exact_mod_cast h : (d : ℚ) ≤ (n : ℚ))

/-- C15: the twelve weight constants sum to exactly 1; a state with every
normalized signal at its maximum load (cache-hit rate 0) scores exactly 1, and
the zero-load state with cache-hit rate 1 scores exactly 0. -/
theorem weights_sum_to_one_and_extremes :
    _weight_cpu_load + _weight_thread_utilization + _weight_context_switch_rate +
      _weight_io_wait_time + _weight_packet_rate + _weight_bandwidth_usage +
      _weight_connection_count + _weight_memory_pool_usage + _weight_cache_hit_rate +
      _weight_task_queue_length + _weight_response_time + _weight_error_rate = 1 ∧
    (∀ m : LoadMetrics, AtMaximumLoad m → m.CalculateLoadScore = 1) ∧
    (∀ m : LoadMetrics, AtZeroLoad m → m.CalculateLoadScore = 0) := by
  refine ⟨?_, ?_, ?_⟩
  · norm_num [_weight_cpu_load, _weight_thread_utilization, _weight_context_switch_rate,
      _weight_io_wait_time, _weight_packet_rate, _weight_bandwidth_usage,
      _weight_connection_count, _weight_memory_pool_usage, _weight_cache_hit_rate,
      _weight_task_queue_length, _weight_response_time, _weight_error_rate]
  · rintro m ⟨h1, h2, h3, h4, h5, h6, h7, h8, h9, h10, h11, h12⟩
    have k3 := norm_saturated m._context_switch_rate 100000 (by norm_num) h3
    have k4 := norm_saturated m._io_wait_time 1000000 (by norm_num) h4
    have k5 := norm_saturated m._packet_rate 1000000 (by norm_num) h5
    have k7 := norm_saturated m._connection_count 10000 (by norm_num) h7
    have k10 := norm_saturated m._task_queue_length 1000 (by norm_num) h10
    have k11 := norm_saturated m._response_time 1000000 (by norm_num) h11
    simp only [Nat.cast_ofNat] at k3 k4 k5 k7 k10 k11
    simp only [CalculateLoadScore, weightedSum, h1, h2, h6, h8, h9, h12, k3, k4, k5, k7, k10,
      k11, _weight_cpu_load, _weight_thread_utilization, _weight_context_switch_rate,
      _weight_io_wait_time, _weight_packet_rate, _weight_bandwidth_usage,
      _weight_connection_count, _weight_memory_pool_usage, _weight_cache_hit_rate,
      _weight_task_queue_length, _weight_response_time, _weight_error_rate]
    norm_num
  · rintro m ⟨h1, h2, h3, h4, h5, h6, h7, h8, h9, h10, h11, h12⟩
    simp only [CalculateLoadScore, weightedSum, h1, h2, h3, h4, h5, h6, h7, h8, h9, h10, h11,
      h12, _weight_cpu_load, _weight_thread_utilization, _weight_context_switch_rate,
      _weight_io_wait_time, _weight_packet_rate, _weight_bandwidth_usage,
      _weight_connection_count, _weight_memory_pool_usage, _weight_cache_hit_rate,
      _weight_task_queue_length, _weight_response_time, _weight_error_rate]
    norm_num

theorem saturated_eq :
    saturated =
      { _cpu_load := min 1 (max 0 1), _thread_utilization := min 1 (max 0 1),
        _context_switch_rate := 100000, _io_wait_time := 1000000, _packet_rate := 1000000,
        _bandwidth_usage := min 1 (max 0 1), _connection_count := 10000,
        _memory_pool_usage := min 1 (max 0 1), _cache_hit_rate := min 1 (max 0 0),
        _task_queue_length := 1000, _response_time := 1000000,
        _error_rate := min 1 (max 0 1) } :=
  rfl

theorem idle_eq : idle = { _cache_hit_rate := min 1 (max 0 1) } :=
  rfl

theorem saturated_atMaximumLoad : AtMaximumLoad saturated := by
  rw [saturated_eq]
  simp only [AtMaximumLoad]
  norm_num

theorem idle_atZeroLoad : AtZeroLoad idle := by
  rw [idle_eq]
  simp only [AtZeroLoad]
  norm_num

/-- C15 on the two states built by the setters: `saturated` is at maximum load
and scores exactly 1, `idle` is at zero load and scores exactly 0. -/
theorem weights_sum_to_one_and_extremes_witness :
    (AtMaximumLoad saturated ∧ saturated.CalculateLoadScore = 1) ∧
      (AtZeroLoad idle ∧ idle.CalculateLoadScore = 0) :=
  ⟨⟨saturated_atMaximumLoad,
      weights_sum_to_one_and_extremes.2.1 saturated saturated_atMaximumLoad⟩,
    ⟨idle_atZeroLoad, weights_sum_to_one_and_extremes.2.2 idle idle_atZeroLoad⟩⟩

end LoadMetrics

/-! ## LoadMonitor -/

namespace LoadMonitor

/-- The running maxima start at `0` and are each either `0`-or-start or attained
by an entry; they dominate every entry scanned. -/
theorem foldl_maxStep_ge (l : List DispatcherLoad) (acc : Nat × Nat × Nat) :
    (acc.1 ≤ (l.foldl maxStep acc).1 ∧ acc.2.1 ≤ (l.foldl maxStep acc).2.1 ∧
      acc.2.2 ≤ (l.foldl maxStep acc).2.2) ∧
    ∀ dl ∈ l, dl.load_info.cpu_usage ≤ (l.foldl maxStep acc).1 ∧
      dl.load_info.queue_length ≤ (l.foldl maxStep acc).2.1 ∧
      dl.load_info.connection_count ≤ (l.foldl maxStep acc).2.2 := by
  induction l generalizing acc with
  | nil => simp
  | cons x xs ih =>
    obtain ⟨⟨g1, g2, g3⟩, g4⟩ := ih (maxStep acc x)
    have s1 : acc.1 ≤ (maxStep acc x).1 ∧ x.load_info.cpu_usage ≤ (maxStep acc x).1 := by
      simp only [maxStep]; split <;> omega
    have s2 : acc.2.1 ≤ (maxStep acc x).2.1 ∧ x.load_info.queue_length ≤ (maxStep acc x).2.1 := by
      simp only [maxStep]; split <;> omega
    have s3 : acc.2.2 ≤ (maxStep acc x).2.2 ∧
        x.load_info.connection_count ≤ (maxStep acc x).2.2 := by
      simp only [maxStep]; split <;> omega
    refine ⟨⟨?_, ?_, ?_⟩, ?_⟩
    · simp only [List.foldl_cons]; omega
    · simp only [List.foldl_cons]; omega
    · simp only [List.foldl_cons]; omega
    · intro dl hdl
      simp only [List.foldl_cons]
      rcases List.mem_cons.1 hdl with rfl | hmem
      · refine ⟨?_, ?_, ?_⟩ <;> omega
      · exact g4 dl hmem

/-- Each running maximum is the start value or the value of a scanned entry. -/
theorem foldl_maxStep_attained (l : List DispatcherLoad) (acc : Nat × Nat × Nat) :
    ((l.foldl maxStep acc).1 = acc.1 ∨ ∃ dl ∈ l, dl.load_info.cpu_usage = (l.foldl maxStep acc).1) ∧
    ((l.foldl maxStep acc).2.1 = acc.2.1 ∨
      ∃ dl ∈ l, dl.load_info.queue_length = (l.foldl maxStep acc).2.1) ∧
    ((l.foldl maxStep acc).2.2 = acc.2.2 ∨
      ∃ dl ∈ l, dl.load_info.connection_count = (l.foldl maxStep acc).2.2) := by
  induction l generalizing acc with
  | nil => simp
  | cons x xs ih =>
    obtain ⟨g1, g2, g3⟩ := ih (maxStep acc x)
    simp only [List.foldl_cons]
    refine ⟨?_, ?_, ?_⟩
    · rcases g1 with g | ⟨dl, hdl, g⟩
      · by_cases hx : x.load_info.cpu_usage > acc.1
        · right; exact ⟨x, List.mem_cons_self _ _, by rw [g]; simp [maxStep, hx]⟩
        · left; rw [g]; simp [maxStep, hx]
      · right; exact ⟨dl, List.mem_cons_of_mem _ hdl, g⟩
    · rcases g2 with g | ⟨dl, hdl, g⟩
      · by_cases hx : x.load_info.queue_length > acc.2.1
        · right; exact ⟨x, List.mem_cons_self _ _, by rw [g]; simp [maxStep, hx]⟩
        · left; rw [g]; simp [maxStep, hx]
      · right; exact ⟨dl, List.mem_cons_of_mem _ hdl, g⟩
    · rcases g3 with g | ⟨dl, hdl, g⟩
      · by_cases hx : x.load_info.connection_count > acc.2.2
        · right; exact ⟨x, List.mem_cons_self _ _, by rw [g]; simp [maxStep, hx]⟩
        · left; rw [g]; simp [maxStep, hx]
      · right; exact ⟨dl, List.mem_cons_of_mem _ hdl, g⟩

/-- C2, as stated, fails on a registry of exactly one dispatcher: the single
registered dispatcher reports 95% CPU (over the default threshold 80), yet
`NeedLoadBalance()` returns false. -/
theorem NeedLoadBalance_false_on_single_overloaded :
    ¬ (singleBusy.NeedLoadBalance = true ↔
        ∃ dl ∈ singleBusy._dispatcher_loads, Overloaded singleBusy dl) := by
  decide

/-- C2, amended: `NeedLoadBalance()` returns true if and only if the registry
holds at least two dispatchers and at least one registered dispatcher has
`cpu_usage > cpu_threshold`, or `queue_length > queue_threshold`, or
`connection_count > connection_threshold`. -/
theorem NeedLoadBalance_iff (m : LoadMonitor) :
    m.NeedLoadBalance = true ↔
      (2 ≤ m._dispatcher_loads.length ∧ ∃ dl ∈ m._dispatcher_loads, Overloaded m dl) := by
  have hge := (foldl_maxStep_ge m._dispatcher_loads (0, 0, 0)).2
  have hat := foldl_maxStep_attained m._dispatcher_loads (0, 0, 0)
  unfold NeedLoadBalance
  by_cases hlen : m._dispatcher_loads.length < 2
  · simp only [hlen, if_true]
    constructor
    · intro h; cases h
    · rintro ⟨h, -⟩; omega
  · simp only [hlen, if_false, Bool.or_eq_true, decide_eq_true_eq]
    constructor
    · intro h
      refine ⟨by omega, ?_⟩
      obtain ⟨a1, a2, a3⟩ := hat
      rcases h with h | h | h
      · rcases a1 with a | ⟨dl, hdl, a⟩
        · simp only at a; omega
        · exact ⟨dl, hdl, Or.inl (by omega)⟩
      · rcases a2 with a | ⟨dl, hdl, a⟩
        · simp only at a; omega
        · exact ⟨dl, hdl, Or.inr (Or.inl (by omega))⟩
      · rcases a3 with a | ⟨dl, hdl, a⟩
        · simp only at a; omega
        · exact ⟨dl, hdl, Or.inr (Or.inr (by omega))⟩
    · rintro ⟨-, dl, hdl, h⟩
      obtain ⟨b1, b2, b3⟩ := hge dl hdl
      rcases h with h | h | h
      · exact Or.inl (by omega)
      · exact Or.inr (Or.inl (by omega))
      · exact Or.inr (Or.inr (by omega))

theorem lexLE_refl (a : DispatcherLoad) : lexLE a a := Or.inr ⟨rfl, le_rfl⟩

theorem lexLE_trans {a b c : DispatcherLoad} (h1 : lexLE a b) (h2 : lexLE b c) : lexLE a c := by
  unfold lexLE at *
  omega

theorem leastStep_spec (acc it : DispatcherLoad) :
    (leastStep acc it = acc ∨ leastStep acc it = it) ∧
      lexLE (leastStep acc it) acc ∧ lexLE (leastStep acc it) it := by
  unfold leastStep
  split
  · rename_i h
    refine ⟨Or.inr rfl, ?_, lexLE_refl _⟩
    unfold lexLE; omega
  · rename_i h
    refine ⟨Or.inl rfl, lexLE_refl _, ?_⟩
    unfold lexLE; omega

theorem mostStep_spec (acc it : DispatcherLoad) :
    (mostStep acc it = acc ∨ mostStep acc it = it) ∧
      lexLE acc (mostStep acc it) ∧ lexLE it (mostStep acc it) := by
  unfold mostStep
  split
  · rename_i h
    refine ⟨Or.inr rfl, ?_, lexLE_refl _⟩
    unfold lexLE; omega
  · rename_i h
    refine ⟨Or.inl rfl, lexLE_refl _, ?_⟩
    unfold lexLE; omega

/-- The scan for the least loaded entry ends on a scanned entry that is
lexicographically at most every scanned entry. -/
theorem foldl_leastStep_spec (rest : List DispatcherLoad) (acc : DispatcherLoad) :
    rest.foldl leastStep acc ∈ acc :: rest ∧
      ∀ e ∈ acc :: rest, lexLE (rest.foldl leastStep acc) e := by
  induction rest generalizing acc with
  | nil => simpa using lexLE_refl acc
  | cons x xs ih =>
    obtain ⟨hm, hle⟩ := ih (leastStep acc x)
    obtain ⟨hs, ha, hx⟩ := leastStep_spec acc x
    simp only [List.foldl_cons]
    constructor
    · rcases List.mem_cons.1 hm with h | h
      · rcases hs with hs | hs
        · rw [h, hs]; exact List.mem_cons_self _ _
        · rw [h, hs]; exact List.mem_cons_of_mem _ (List.mem_cons_self _ _)
      · exact List.mem_cons_of_mem _ (List.mem_cons_of_mem _ h)
    · intro e he
      have h0 := hle (leastStep acc x) (List.mem_cons_self _ _)
      rcases List.mem_cons.1 he with rfl | he
      · exact lexLE_trans h0 ha
      · rcases List.mem_cons.1 he with rfl | he
        · exact lexLE_trans h0 hx
        · exact hle e (List.mem_cons_of_mem _ he)

/-- The scan for the most loaded entry ends on a scanned entry that is
lexicographically at least every scanned entry. -/
theorem foldl_mostStep_spec (rest : List DispatcherLoad) (acc : DispatcherLoad) :
    rest.foldl mostStep acc ∈ acc :: rest ∧
      ∀ e ∈ acc :: rest, lexLE e (rest.foldl mostStep acc) := by
  induction rest generalizing acc with
  | nil => simpa using lexLE_refl acc
  | cons x xs ih =>
    obtain ⟨hm, hle⟩ := ih (mostStep acc x)
    obtain ⟨hs, ha, hx⟩ := mostStep_spec acc x
    simp only [List.foldl_cons]
    constructor
    · rcases List.mem_cons.1 hm with h | h
      · rcases hs with hs | hs
        · rw [h, hs]; exact List.mem_cons_self _ _
        · rw [h, hs]; exact List.mem_cons_of_mem _ (List.mem_cons_self _ _)
      · exact List.mem_cons_of_mem _ (List.mem_cons_of_mem _ h)
    · intro e he
      have h0 := hle (mostStep acc x) (List.mem_cons_self _ _)
      rcases List.mem_cons.1 he with rfl | he
      · exact lexLE_trans ha h0
      · rcases List.mem_cons.1 he with rfl | he
        · exact lexLE_trans hx h0
        · exact hle e (List.mem_cons_of_mem _ he)

/-- C3, as stated, fails on a registry that holds a null handle: after
`AddDispatcher(dispatcher 0)`, `AddDispatcher(nullptr)` and a report of 50% CPU by
dispatcher 0 the registry has two entries, the null entry (CPU 0) is the minimal
one, and `GetLeastLoadedDispatcher()` returns null although the registry is not
empty. -/
theorem GetLeastLoadedDispatcher_null_on_nonempty :
    nullIdle._dispatcher_loads.length = 2 ∧
      ¬ (nullIdle.GetLeastLoadedDispatcher = none ↔ nullIdle._dispatcher_loads = []) := by
  decide

/-- C3, amended: `GetLeastLoadedDispatcher()` returns null on the empty registry;
on a non-empty registry it returns the handle held by a registered entry whose
pair `(cpu_usage, connection_count)` is lexicographically minimal among all
registered entries; and when no registered handle is null it returns null exactly
when the registry is empty. -/
theorem GetLeastLoadedDispatcher_spec (m : LoadMonitor) :
    (m._dispatcher_loads = [] → m.GetLeastLoadedDispatcher = none) ∧
    (m._dispatcher_loads ≠ [] →
      ∃ e ∈ m._dispatcher_loads, m.GetLeastLoadedDispatcher = e.dispatcher ∧
        ∀ e' ∈ m._dispatcher_loads, lexLE e e') ∧
    ((∀ e ∈ m._dispatcher_loads, e.dispatcher ≠ none) →
      (m.GetLeastLoadedDispatcher = none ↔ m._dispatcher_loads = [])) := by
  unfold GetLeastLoadedDispatcher
  cases hl : m._dispatcher_loads with
  | nil => simp
  | cons first rest =>
    obtain ⟨hm, hle⟩ := foldl_leastStep_spec rest first
    refine ⟨by simp, fun _ => ⟨rest.foldl leastStep first, hm, rfl, hle⟩, fun hnn => ?_⟩
    simpa using hnn _ hm

/-- C3 amended, on the registry with CPU usages `[10, 90, 50]`: the dispatcher with
10 (the first one registered) is returned, its entry is lexicographically minimal,
and, no handle being null, null would mean the empty registry. -/
theorem GetLeastLoadedDispatcher_witness :
    (threeCpu 10 90 50).GetLeastLoadedDispatcher = some 0 ∧
    (∃ e ∈ (threeCpu 10 90 50)._dispatcher_loads,
      (threeCpu 10 90 50).GetLeastLoadedDispatcher = e.dispatcher ∧
        ∀ e' ∈ (threeCpu 10 90 50)._dispatcher_loads, lexLE e e') ∧
    ((threeCpu 10 90 50).GetLeastLoadedDispatcher = none ↔
      (threeCpu 10 90 50)._dispatcher_loads = []) :=
  ⟨by decide, (GetLeastLoadedDispatcher_spec (threeCpu 10 90 50)).2.1 (by decide),
    (GetLeastLoadedDispatcher_spec (threeCpu 10 90 50)).2.2 (by decide)⟩

/-- C4, as stated, fails on a registry that holds a null handle: after
`AddDispatcher(dispatcher 0)`, `AddDispatcher(nullptr)`, a report of 10% CPU by
dispatcher 0 and `UpdateLoadInfo(nullptr, 0, 90, 0, 0)` the registry has two
entries, the null entry (CPU 90) is the maximal one, and
`GetMostLoadedDispatcher()` returns null although the registry is not empty. -/
theorem GetMostLoadedDispatcher_null_on_nonempty :
    nullBusy._dispatcher_loads.length = 2 ∧
      ¬ (nullBusy.GetMostLoadedDispatcher = none ↔ nullBusy._dispatcher_loads = []) := by
  decide

/-- C4, amended: `GetMostLoadedDispatcher()` returns null on the empty registry;
on a non-empty registry it returns the handle held by a registered entry whose
pair `(cpu_usage, connection_count)` is lexicographically maximal among all
registered entries; and when no registered handle is null it returns null exactly
when the registry is empty. -/
theorem GetMostLoadedDispatcher_spec (m : LoadMonitor) :
    (m._dispatcher_loads = [] → m.GetMostLoadedDispatcher = none) ∧
    (m._dispatcher_loads ≠ [] →
      ∃ e ∈ m._dispatcher_loads, m.GetMostLoadedDispatcher = e.dispatcher ∧
        ∀ e' ∈ m._dispatcher_loads, lexLE e' e) ∧
    ((∀ e ∈ m._dispatcher_loads, e.dispatcher ≠ none) →
      (m.GetMostLoadedDispatcher = none ↔ m._dispatcher_loads = [])) := by
  unfold GetMostLoadedDispatcher
  cases hl : m._dispatcher_loads with
  | nil => simp
  | cons first rest =>
    obtain ⟨hm, hle⟩ := foldl_mostStep_spec rest first
    refine ⟨by simp, fun _ => ⟨rest.foldl mostStep first, hm, rfl, hle⟩, fun hnn => ?_⟩
    simpa using hnn _ hm

/-- C4 amended, on the registry with CPU usages `[10, 90, 50]`: the dispatcher with
90 (the second one registered) is returned, its entry is lexicographically
maximal, and, no handle being null, null would mean the empty registry. -/
theorem GetMostLoadedDispatcher_witness :
    (threeCpu 10 90 50).GetMostLoadedDispatcher = some 1 ∧
    (∃ e ∈ (threeCpu 10 90 50)._dispatcher_loads,
      (threeCpu 10 90 50).GetMostLoadedDispatcher = e.dispatcher ∧
        ∀ e' ∈ (threeCpu 10 90 50)._dispatcher_loads, lexLE e' e) ∧
    ((threeCpu 10 90 50).GetMostLoadedDispatcher = none ↔
      (threeCpu 10 90 50)._dispatcher_loads = []) :=
  ⟨by decide, (GetMostLoadedDispatcher_spec (threeCpu 10 90 50)).2.1 (by decide),
    (GetMostLoadedDispatcher_spec (threeCpu 10 90 50)).2.2 (by decide)⟩

end LoadMonitor

/-! ## LoadPredictor -/

namespace LoadPredictor

theorem cutoff_time_ge (t d : Nat) (ht : t < 2 ^ 64) (hd : d ≤ 2 ^ 64) :
    (t : Int) - (d : Int) ≤ (cutoff_time t d : Int) := by
  unfold cutoff_time
  omega

/-- On a time-ordered list, what `dropWhile` leaves after the old prefix is all
younger than the cutoff. -/
theorem dropWhile_old_all_young (cutoff : Nat) (w : List LoadPoint) (hw : TimeOrdered w) :
    ∀ point ∈ w.dropWhile (fun point => !decide (point.timestamp_ms > cutoff)),
      cutoff < point.timestamp_ms := by
  induction w with
  | nil => simp
  | cons a l ih =>
    unfold TimeOrdered at hw
    rw [List.pairwise_cons] at hw
    by_cases ha : a.timestamp_ms > cutoff
    · intro point hpoint
      have hd : (a :: l).dropWhile (fun point => !decide (point.timestamp_ms > cutoff)) = a :: l := by
        simp [List.dropWhile_cons, ha]
      rw [hd] at hpoint
      rcases List.mem_cons.1 hpoint with rfl | hmem
      · exact ha
      · have := hw.1 point hmem
        omega
    · have hd : (a :: l).dropWhile (fun point => !decide (point.timestamp_ms > cutoff)) =
          l.dropWhile (fun point => !decide (point.timestamp_ms > cutoff)) := by
        simp [List.dropWhile_cons, ha]
      rw [hd]
      exact ih hw.2

theorem PruneOldData_window (p : LoadPredictor) (t : Nat) :
    (p.PruneOldData t)._load_window =
      p._load_window.dropWhile
        (fun point => !decide (point.timestamp_ms > cutoff_time t p._window_duration_ms)) := by
  unfold PruneOldData
  cases h : p._load_window with
  | nil => simp [h]
  | cons a l => simp [h]

theorem UpdateLoad_window (p : LoadPredictor) (s : ℚ) (t : Nat) :
    (p.UpdateLoad s t)._load_window =
      p._load_window.dropWhile
        (fun point => !decide (point.timestamp_ms > cutoff_time t p._window_duration_ms)) ++
      [{ load_score := s, timestamp_ms := t }] := by
  simp only [UpdateLoad]
  rw [PruneOldData_window]

/-- An update whose timestamp is not before any point of a time-ordered window
leaves the window time-ordered, with the new timestamp the latest. -/
theorem UpdateLoad_timeOrdered (p : LoadPredictor) (s : ℚ) (t : Nat)
    (hw : TimeOrdered p._load_window) (ht : ∀ point ∈ p._load_window, point.timestamp_ms ≤ t) :
    TimeOrdered (p.UpdateLoad s t)._load_window ∧
      ∀ point ∈ (p.UpdateLoad s t)._load_window, point.timestamp_ms ≤ t := by
  rw [UpdateLoad_window]
  have hsub := List.dropWhile_sublist
    (fun point : LoadPoint => !decide (point.timestamp_ms > cutoff_time t p._window_duration_ms))
    (l := p._load_window)
  constructor
  · unfold TimeOrdered at hw ⊢
    rw [List.pairwise_append]
    refine ⟨hw.sublist hsub, List.pairwise_singleton _ _, ?_⟩
    intro a ha b hb
    simp only [List.mem_singleton] at hb
    subst hb
    exact ht a (hsub.subset ha)
  · intro point hpoint
    rcases List.mem_append.1 hpoint with h | h
    · exact ht point (hsub.subset h)
    · simp only [List.mem_singleton] at h
      subst h
      exact le_rfl

/-- Updates with non-decreasing timestamps keep the window time-ordered. -/
theorem feed_timeOrdered (calls : List (ℚ × Nat)) (p : LoadPredictor)
    (hw : TimeOrdered p._load_window)
    (hp : ∀ point ∈ p._load_window, ∀ c ∈ calls, point.timestamp_ms ≤ c.2)
    (hc : calls.Pairwise (fun a b => a.2 ≤ b.2)) :
    TimeOrdered (feed p calls)._load_window := by
  induction calls generalizing p with
  | nil => simpa [feed] using hw
  | cons c cs ih =>
    rw [List.pairwise_cons] at hc
    obtain ⟨h1, h2⟩ := UpdateLoad_timeOrdered p c.1 c.2 hw
      (fun point hpoint => hp point hpoint c (List.mem_cons_self _ _))
    have h3 := ih (p.UpdateLoad c.1 c.2) h1
      (fun point hpoint c' hc' => le_trans (h2 point hpoint) (hc.1 c' hc')) hc.2
    simpa [feed] using h3

/-- C5 at the failing input: after updates at 150000 ms and then 100000 ms, the
update at 200000 ms retains the point of 100000 ms, which is not younger than
200000 - 60000 = 140000 ms: `find_if` stops at the first point, which is young
enough, and the older point behind it is never looked at. -/
theorem PrunedAfterUpdate_fails_out_of_order : ¬ PrunedAfterUpdate backwards 0 200000 := by
  intro h
  have h1 := h { load_score := 0, timestamp_ms := 100000 }
  apply h1
  · rw [UpdateLoad_window]
    simp [backwards, feed, UpdateLoad_window, init, cutoff_time, UpdateLoad, PruneOldData]
  · simp [backwards, feed, UpdateLoad, PruneOldData, init]

/-- When the window is in non-decreasing timestamp order the pruning is complete:
after `UpdateLoad(s, t)` no retained point has a timestamp `≤ t - window_duration`
(60000 ms; the difference taken in the integers). -/
theorem PrunedAfterUpdate_of_timeOrdered (p : LoadPredictor) (s : ℚ) (t : Nat)
    (hw : TimeOrdered p._load_window) (hd : p._window_duration_ms = 60000) (ht : t < 2 ^ 64) :
    PrunedAfterUpdate p s t := by
  intro point hpoint
  rw [UpdateLoad_window] at hpoint
  have hc := cutoff_time_ge t p._window_duration_ms ht (by rw [hd]; norm_num)
  rcases List.mem_append.1 hpoint with hold | hnew
  · have := dropWhile_old_all_young _ _ hw point hold
    omega
  · simp only [List.mem_singleton] at hnew
    subst hnew
    simp only
    omega

/-- The pruning is complete at a concrete time-ordered window (points at
100000 ms and 150000 ms) and the call `UpdateLoad(0, 200000)`. -/
theorem PrunedAfterUpdate_witness :
    TimeOrdered forwards._load_window ∧ forwards._window_duration_ms = 60000 ∧
      200000 < 2 ^ 64 ∧ PrunedAfterUpdate forwards 0 200000 :=
  have hw : TimeOrdered forwards._load_window := by
    simp [forwards, feed, UpdateLoad, PruneOldData, init, TimeOrdered, cutoff_time]
  have hd : forwards._window_duration_ms = 60000 := by
    simp [forwards, feed, UpdateLoad, PruneOldData, init]
  ⟨hw, hd, by norm_num, PrunedAfterUpdate_of_timeOrdered forwards 0 200000 hw hd (by norm_num)⟩

theorem UpdateLoad_window_size (p : LoadPredictor) (s : ℚ) (t : Nat) :
    (p.UpdateLoad s t)._window_size = p._window_size ∧
      (p.UpdateLoad s t)._window_duration_ms = p._window_duration_ms := by
  simp only [UpdateLoad, PruneOldData]
  split <;> simp

theorem feed_window_size (calls : List (ℚ × Nat)) (p : LoadPredictor) :
    (feed p calls)._window_size = p._window_size ∧
      (feed p calls)._window_duration_ms = p._window_duration_ms := by
  induction calls generalizing p with
  | nil => simp [feed]
  | cons c cs ih =>
    have h1 := ih (p.UpdateLoad c.1 c.2)
    have h2 := UpdateLoad_window_size p c.1 c.2
    simp only [feed, List.foldl_cons] at h1 ⊢
    exact ⟨h1.1.trans h2.1, h1.2.trans h2.2⟩

theorem dropWhile_none_old (cutoff : Nat) (w : List LoadPoint)
    (h : ∀ point ∈ w, cutoff < point.timestamp_ms) :
    w.dropWhile (fun point => !decide (point.timestamp_ms > cutoff)) = w := by
  cases w with
  | nil => rfl
  | cons a l =>
    have ha := h a (List.mem_cons_self _ _)
    simp [List.dropWhile_cons, ha]

/-- Updates whose timestamps all lie within one window duration of each other
prune nothing: each one appends its point. -/
theorem feed_window_append (calls : List (ℚ × Nat)) (p : LoadPredictor) (lo : Nat)
    (hd : p._window_duration_ms = 60000) (hlo : 60000 ≤ lo) (hhi : lo + 60000 ≤ 2 ^ 64)
    (hp : ∀ point ∈ p._load_window, lo ≤ point.timestamp_ms)
    (hc : ∀ c ∈ calls, lo ≤ c.2 ∧ c.2 < lo + 60000) :
    (feed p calls)._load_window = p._load_window ++ calls.map toPoint := by
  induction calls generalizing p with
  | nil => simp [feed]
  | cons c cs ih =>
    obtain ⟨hc1, hc2⟩ := hc c (List.mem_cons_self _ _)
    have hw : (p.UpdateLoad c.1 c.2)._load_window = p._load_window ++ [toPoint c] := by
      rw [UpdateLoad_window, dropWhile_none_old]
      · rfl
      · intro point hpoint
        have := hp point hpoint
        rw [hd]
        unfold cutoff_time
        omega
    have h1 := ih (p.UpdateLoad c.1 c.2) ((UpdateLoad_window_size p c.1 c.2).2.trans hd)
      (by
        intro point hpoint
        rw [hw] at hpoint
        rcases List.mem_append.1 hpoint with h | h
        · exact hp point h
        · simp only [List.mem_singleton] at h
          subst h
          exact hc1)
      (fun c' hc' => hc c' (List.mem_cons_of_mem _ hc'))
    simp only [feed, List.foldl_cons] at h1 ⊢
    rw [h1, hw]
    simp

/-- C6 at the failing input: after the 101 updates of `burst` (one per millisecond)
the configured maximum count is still 100 and the window holds 101 points. -/
theorem window_exceeds_window_size :
    (feed init burst)._window_size = 100 ∧ (feed init burst)._load_window.length = 101 := by
  constructor
  · rw [(feed_window_size burst init).1]; rfl
  · rw [feed_window_append burst init 100000 rfl (by norm_num) (by norm_num)
      (by simp [init])
      (by
        intro c hc
        simp only [burst, List.mem_map, List.mem_range] at hc
        obtain ⟨i, hi, rfl⟩ := hc
        simp only
        omega)]
    simp [init, burst]

/-- C7 at the failing input: after updates `(0.9, 100000)`, `(0.5, 150000)`,
`(0.4, 200000)` the window retains the last two points only, every retained load
score is at most 0.5, and `GetMaxLoad()` still returns the pruned 0.9. -/
theorem GetMaxLoad_keeps_pruned_peak :
    stalePeak._load_window =
        [{ load_score := 1 / 2, timestamp_ms := 150000 },
         { load_score := 2 / 5, timestamp_ms := 200000 }] ∧
      (∀ point ∈ stalePeak._load_window, point.load_score ≤ 1 / 2) ∧
      stalePeak.GetMaxLoad = 9 / 10 := by
  have hw : stalePeak._load_window =
      [{ load_score := 1 / 2, timestamp_ms := 150000 },
       { load_score := 2 / 5, timestamp_ms := 200000 }] := by
    simp [stalePeak, feed, UpdateLoad_window, init, cutoff_time, UpdateLoad, PruneOldData]
  refine ⟨hw, ?_, ?_⟩
  · rw [hw]
    intro point hpoint
    simp only [List.mem_cons, List.mem_singleton, List.not_mem_nil, or_false] at hpoint
    rcases hpoint with rfl | rfl <;> norm_num
  · simp [stalePeak, feed, GetMaxLoad, init, cutoff_time, UpdateLoad, PruneOldData]
    norm_num

/-- C8 at the failing input: after the single call `UpdateLoad(0.5, 10)` the first
`PredictLoad` returns 0.5 but its pruning (cutoff `10 - 60000` wrapped to
`2^64 - 59990`) empties the window; the second `PredictLoad` then finds fewer than
two points and returns 0.0, although the most recent `UpdateLoad` passed 0.5. -/
theorem PredictLoad_zero_after_early_update :
    (earlyPoint.PredictLoad 300000).1 = 1 / 2 ∧
      (earlyPoint.PredictLoad 300000).2._load_window = [] ∧
      (earlyPoint.PredictLoad 300000).2.GetCurrentLoad = 1 / 2 ∧
      ((earlyPoint.PredictLoad 300000).2.PredictLoad 300000).1 = 0 := by
  have h : earlyPoint.PredictLoad 300000 =
      (1 / 2, { init with _current_load := 1 / 2, _average_load := 1 / 2, _max_load := 1 / 2,
                          _min_load := 1 / 2 }) := by
    simp [earlyPoint, feed, PredictLoad, backTimestamp, init, cutoff_time, UpdateLoad,
      PruneOldData, scoreSum]
  rw [h]
  simp [PredictLoad, GetCurrentLoad, init]

theorem twoPoints_eq :
    twoPoints =
      { init with
        _current_load := 1, _average_load := 1 / 2, _max_load := 1, _min_load := 0,
        _load_window := [{ load_score := 0, timestamp_ms := 100000 },
                         { load_score := 1, timestamp_ms := 101000 }] } := by
  simp [twoPoints, feed, init, cutoff_time, UpdateLoad, PruneOldData, scoreSum]
  norm_num

theorem twoPoints_PredictLoad :
    twoPoints.PredictLoad 1000 =
      (81 / 100,
        { init with
          _current_load := 1, _average_load := 1 / 2, _max_load := 1, _min_load := 0,
          _load_window := [{ load_score := 0, timestamp_ms := 100000 },
                           { load_score := 1, timestamp_ms := 101000 }],
          _last_ema := 3 / 10, _ema_initialized := true,
          _slope := 1 / 1000, _intercept := -100, _regression_initialized := true }) := by
  rw [twoPoints_eq]
  simp [PredictLoad, backTimestamp, init, cutoff_time, PruneOldData, CalculateEMA, emaLoop,
    CalculateLinearRegression]
  norm_num

theorem foldl_add_eq_sum (f : LoadPoint → ℚ) (w : List LoadPoint) (a : ℚ) :
    w.foldl (fun s point => s + f point) a = a + (w.map f).sum := by
  induction w generalizing a with
  | nil => simp
  | cons x xs ih => simp only [List.foldl_cons, List.map_cons, List.sum_cons, ih]; ring

theorem sum_const_of_forall (g : LoadPoint → ℚ) (c : ℚ) (w : List LoadPoint)
    (h : ∀ point ∈ w, g point = c) : (w.map g).sum = (w.length : ℚ) * c := by
  induction w with
  | nil => simp
  | cons x xs ih =>
    simp only [List.map_cons, List.sum_cons, List.length_cons, Nat.cast_succ]
    rw [ih (fun point hpoint => h point (List.mem_cons_of_mem _ hpoint)),
      h x (List.mem_cons_self _ _)]
    ring

theorem twoPoints_regressionForecast :
    regressionForecast
      [{ load_score := 0, timestamp_ms := 100000 }, { load_score := 1, timestamp_ms := 101000 }]
      1000 = 2 := by
  have hs : ¬ SameTime
      [{ load_score := 0, timestamp_ms := 100000 }, { load_score := 1, timestamp_ms := 101000 }] := by
    decide
  rw [regressionForecast, if_neg hs]
  norm_num [olsIntercept, olsSlope, meanTime, meanScore, backTimestamp]

/-- C9 at the failing input: with points `(0, 100000)` and `(1, 101000)` in the
window the least-squares forecast for horizon 1000 is 2, and the call that
computes the regression returns it; the next call, answered from the cached slope
`0.001` and intercept `-100` on the same window, returns
`-100 + 0.001 * 1000 = -99`. -/
theorem cached_regression_drops_last_timestamp :
    twoPointsPredicted._load_window = twoPoints._load_window ∧
      twoPointsPredicted._regression_initialized = true ∧
      regressionForecast twoPointsPredicted._load_window 1000 = 2 ∧
      (twoPoints.CalculateLinearRegression 1000).1 = 2 ∧
      (twoPointsPredicted.PruneOldData
        (backTimestamp twoPointsPredicted._load_window)).CalculateEMA.2 = twoPointsPredicted ∧
      (twoPointsPredicted.CalculateLinearRegression 1000).1 = -99 := by
  have hp : twoPointsPredicted = (twoPoints.PredictLoad 1000).2 := rfl
  rw [hp, twoPoints_PredictLoad, twoPoints_eq]
  refine ⟨rfl, rfl, twoPoints_regressionForecast, ?_, ?_, ?_⟩
  · simp [CalculateLinearRegression, init, backTimestamp]
    norm_num
  · simp [PruneOldData, CalculateEMA, backTimestamp, cutoff_time, init]
  · simp [CalculateLinearRegression, init]
    norm_num

theorem twoPointsPredicted_eq :
    twoPointsPredicted =
      { init with
        _current_load := 1, _average_load := 1 / 2, _max_load := 1, _min_load := 0,
        _load_window := [{ load_score := 0, timestamp_ms := 100000 },
                         { load_score := 1, timestamp_ms := 101000 }],
        _last_ema := 3 / 10, _ema_initialized := true,
        _slope := 1 / 1000, _intercept := -100, _regression_initialized := true } := by
  have hp : twoPointsPredicted = (twoPoints.PredictLoad 1000).2 := rfl
  rw [hp, twoPoints_PredictLoad]

theorem twoPoints_emaSpec_half :
    emaSpec (1 / 2)
      [{ load_score := 0, timestamp_ms := 100000 }, { load_score := 1, timestamp_ms := 101000 }]
      = 1 / 2 := by
  norm_num [emaSpec, emaAt]

/-- C10 at the failing input `UpdateLoad(0, 100000)`, `UpdateLoad(1, 101000)`,
`PredictLoad(1000)`, `SetSmoothingFactor(0.5)`, `PredictLoad(1000)`: the window
still holds the two points, the smoothing factor is 0.5, so `E = 0.5`, and the
least-squares forecast is `R = 2`, giving `0.7 * E + 0.3 * R = 0.95`; the call
returns `-29.49`, built from the average cached under factor 0.3 and the cached
regression path. Even with `R` read as the value `-99` that the regression step
returns on this call, `0.7 * E + 0.3 * R = -29.35` is not what is returned. Without
the `SetSmoothingFactor` call the second `PredictLoad(1000)` returns `-29.49` as
well, where the first one returned `0.81` on the same window. -/
theorem PredictLoad_not_weighted_sum_when_cached :
    twoPointsRetuned._load_window =
        [{ load_score := 0, timestamp_ms := 100000 }, { load_score := 1, timestamp_ms := 101000 }] ∧
      twoPointsRetuned._smoothing_factor = 1 / 2 ∧
      0.7 * emaSpec twoPointsRetuned._smoothing_factor twoPointsRetuned._load_window +
        0.3 * regressionForecast twoPointsRetuned._load_window 1000 = 95 / 100 ∧
      0.7 * emaSpec twoPointsRetuned._smoothing_factor twoPointsRetuned._load_window +
        0.3 * (twoPointsRetuned.CalculateLinearRegression 1000).1 = -2935 / 100 ∧
      (twoPointsRetuned.PredictLoad 1000).1 = -2949 / 100 ∧
      (twoPoints.PredictLoad 1000).1 = 81 / 100 ∧
      (twoPointsPredicted.PredictLoad 1000).1 = -2949 / 100 := by
  have hr : twoPointsRetuned =
      { init with
        _current_load := 1, _average_load := 1 / 2, _max_load := 1, _min_load := 0,
        _load_window := [{ load_score := 0, timestamp_ms := 100000 },
                         { load_score := 1, timestamp_ms := 101000 }],
        _smoothing_factor := 1 / 2,
        _last_ema := 3 / 10, _ema_initialized := true,
        _slope := 1 / 1000, _intercept := -100, _regression_initialized := true } := by
    have h0 : twoPointsRetuned = twoPointsPredicted.SetSmoothingFactor (1 / 2) := rfl
    rw [h0, twoPointsPredicted_eq]
    rfl
  refine ⟨?_, ?_, ?_, ?_, ?_, ?_, ?_⟩
  · rw [hr]
  · rw [hr]
  · rw [hr]
    simp only
    rw [twoPoints_regressionForecast, twoPoints_emaSpec_half]
    norm_num
  · rw [hr]
    simp only
    rw [twoPoints_emaSpec_half]
    simp [CalculateLinearRegression, init]
    norm_num
  · rw [hr]
    simp [PredictLoad, backTimestamp, init, cutoff_time, PruneOldData, CalculateEMA,
      CalculateLinearRegression]
    norm_num
  · rw [twoPoints_PredictLoad]
  · rw [twoPointsPredicted_eq]
    simp [PredictLoad, backTimestamp, init, cutoff_time, PruneOldData, CalculateEMA,
      CalculateLinearRegression]
    norm_num

/-! ### Constant load scores -/

theorem UpdateLoad_fields (p : LoadPredictor) (s : ℚ) (t : Nat) :
    (p.UpdateLoad s t)._current_load = s ∧ (p.UpdateLoad s t)._ema_initialized = false ∧
      (p.UpdateLoad s t)._regression_initialized = false ∧
      (p.UpdateLoad s t)._smoothing_factor = p._smoothing_factor := by
  simp only [UpdateLoad, PruneOldData]
  split <;> simp

theorem backTimestamp_concat (w : List LoadPoint) (x : LoadPoint) :
    backTimestamp (w ++ [x]) = x.timestamp_ms := by
  simp [backTimestamp]

theorem PruneOldData_eq_self (p : LoadPredictor) (t : Nat)
    (h : ∀ point ∈ p._load_window,
      cutoff_time t p._window_duration_ms < point.timestamp_ms) :
    p.PruneOldData t = p := by
  unfold PruneOldData
  split
  · rfl
  · simp only [dropWhile_none_old _ _ h]

theorem emaLoop_const (alpha c : ℚ) (rest : List LoadPoint)
    (h : ∀ point ∈ rest, point.load_score = c) : emaLoop alpha c rest = c := by
  induction rest with
  | nil => rfl
  | cons x xs ih =>
    have hx := h x (List.mem_cons_self _ _)
    have h1 : alpha * x.load_score + (1 - alpha) * c = c := by rw [hx]; ring
    simp only [emaLoop, List.foldl_cons] at ih ⊢
    rw [h1]
    exact ih (fun point hpoint => h point (List.mem_cons_of_mem _ hpoint))

/-- On a window of constant load score `c` with a sound cache, `CalculateEMA`
returns `c`, leaves the window and the regression cache alone and keeps the
average cache sound. -/
theorem CalculateEMA_const (c : ℚ) (p : LoadPredictor) (hne : p._load_window ≠ [])
    (hc : ∀ point ∈ p._load_window, point.load_score = c)
    (hcache : p._ema_initialized = true → p._last_ema = c) :
    (p.CalculateEMA).1 = c ∧
      (p.CalculateEMA).2._load_window = p._load_window ∧
      (p.CalculateEMA).2._current_load = p._current_load ∧
      (p.CalculateEMA).2._window_duration_ms = p._window_duration_ms ∧
      (p.CalculateEMA).2._regression_initialized = p._regression_initialized ∧
      (p.CalculateEMA).2._slope = p._slope ∧
      (p.CalculateEMA).2._intercept = p._intercept ∧
      ((p.CalculateEMA).2._ema_initialized = true → (p.CalculateEMA).2._last_ema = c) := by
  unfold CalculateEMA
  cases hw : p._load_window with
  | nil => exact absurd hw hne
  | cons first rest =>
    rw [hw] at hc
    have h1 := hc first (List.mem_cons_self _ _)
    have h2 := emaLoop_const p._smoothing_factor c rest
      (fun point hpoint => hc point (List.mem_cons_of_mem _ hpoint))
    have h3 : emaLoop p._smoothing_factor first.load_score rest = c := by rw [h1]; exact h2
    by_cases hi : p._ema_initialized = true
    · simp [hi, hcache hi, hw]
    · simp [hi, h3]

/-- On a window of at least two points of constant load score `c` with a sound
cache, `CalculateLinearRegression` returns `c` for every horizon, leaves the
window alone and keeps the cache sound. -/
theorem CalculateLinearRegression_const (c : ℚ) (p : LoadPredictor) (h : Nat)
    (hlen : 2 ≤ p._load_window.length)
    (hc : ∀ point ∈ p._load_window, point.load_score = c)
    (hcache : p._regression_initialized = true → p._slope = 0 ∧ p._intercept = c) :
    (p.CalculateLinearRegression h).1 = c ∧
      (p.CalculateLinearRegression h).2._load_window = p._load_window ∧
      (p.CalculateLinearRegression h).2._current_load = p._current_load ∧
      (p.CalculateLinearRegression h).2._window_duration_ms = p._window_duration_ms ∧
      (p.CalculateLinearRegression h).2._ema_initialized = p._ema_initialized ∧
      (p.CalculateLinearRegression h).2._last_ema = p._last_ema ∧
      ((p.CalculateLinearRegression h).2._regression_initialized = true →
        (p.CalculateLinearRegression h).2._slope = 0 ∧
          (p.CalculateLinearRegression h).2._intercept = c) := by
  have hn : (p._load_window.length : ℚ) ≠ 0 := by
    have : p._load_window.length ≠ 0 := by omega
    exact_mod_cast this
  have hmy : p._load_window.foldl (fun s point => s + point.load_score) 0 /
      (p._load_window.length : ℚ) = c := by
    rw [foldl_add_eq_sum (fun point => point.load_score),
      sum_const_of_forall (fun point => point.load_score) c _ hc]
    field_simp
  unfold CalculateLinearRegression
  rw [if_neg (by omega)]
  by_cases hi : p._regression_initialized = true
  · obtain ⟨e1, e2⟩ := hcache hi
    simp [hi, e1, e2]
  · simp only [hi, Bool.false_eq_true, if_false, hmy]
    have hnum : p._load_window.foldl (fun s point =>
        s + ((point.timestamp_ms : ℚ) -
          p._load_window.foldl (fun s point => s + (point.timestamp_ms : ℚ)) 0 /
            (p._load_window.length : ℚ)) * (point.load_score - c)) 0 = 0 := by
      rw [foldl_add_eq_sum, sum_const_of_forall _ 0 _
        (fun point hpoint => by simp only [hc point hpoint, sub_self, mul_zero])]
      ring
    rw [hnum]
    split
    · simp [hi]
    · simp

/-- `PredictLoad` on a constant, pruning-stable state returns the constant and
leaves such a state behind. -/
theorem PredictLoad_const (c : ℚ) (p : LoadPredictor) (h : Nat) (hinv : ConstInv c p) :
    (p.PredictLoad h).1 = c ∧ ConstInv c (p.PredictLoad h).2 := by
  obtain ⟨hne, hc, hcur, hstable, hema, hreg⟩ := hinv
  have hempty : p._load_window.isEmpty = false := by
    cases hw : p._load_window with
    | nil => exact absurd hw hne
    | cons a l => rfl
  have hprune := PruneOldData_eq_self p (backTimestamp p._load_window) hstable
  unfold PredictLoad
  simp only [hempty, Bool.false_eq_true, if_false, hprune]
  by_cases hlen : p._load_window.length < 2
  · rw [if_pos hlen]
    exact ⟨hcur, hne, hc, hcur, hstable, hema, hreg⟩
  · rw [if_neg hlen]
    obtain ⟨a1, a2, a3, a4, a5, a6, a7, a8⟩ := CalculateEMA_const c p hne hc hema
    obtain ⟨b1, b2, b3, b4, b5, b6, b7⟩ := CalculateLinearRegression_const c p.CalculateEMA.2 h
      (by rw [a2]; omega) (by rw [a2]; exact hc) (by rw [a5, a6, a7]; exact hreg)
    refine ⟨?_, ?_, ?_, ?_, ?_, ?_, ?_⟩
    · simp only [a1, b1]; norm_num; ring
    · simp only [b2, a2]; exact hne
    · simp only [b2, a2]; exact hc
    · simp only [b3, a3]; exact hcur
    · simp only [b2, a2, b4, a4]; exact hstable
    · simp only [b5, b6]; exact a8
    · exact b7

/-- Every value returned by consecutive `PredictLoad` calls on a constant,
pruning-stable state is the constant. -/
theorem predictAll_const (c : ℚ) (hs : List Nat) (p : LoadPredictor) (hinv : ConstInv c p) :
    ∀ r ∈ predictAll p hs, r = c := by
  induction hs generalizing p with
  | nil => simp [predictAll]
  | cons h hs ih =>
    obtain ⟨h1, h2⟩ := PredictLoad_const c p h hinv
    intro r hr
    simp only [predictAll, List.mem_cons] at hr
    rcases hr with rfl | hr
    · exact h1
    · exact ih _ h2 r hr

/-- An update with load score `c` at a timestamp of at least one window duration,
not before any point of a time-ordered window of constant score `c`, gives a
constant, pruning-stable state. -/
theorem UpdateLoad_constInv (c : ℚ) (p : LoadPredictor) (t : Nat)
    (hw : TimeOrdered p._load_window) (hc : ∀ point ∈ p._load_window, point.load_score = c)
    (hd : p._window_duration_ms = 60000) (ht : 60000 ≤ t) (ht2 : t < 2 ^ 64) :
    ConstInv c (p.UpdateLoad c t) ∧
      (∀ point ∈ (p.UpdateLoad c t)._load_window, point.load_score = c) ∧
      (p.UpdateLoad c t)._window_duration_ms = 60000 := by
  obtain ⟨f1, f2, f3, -⟩ := UpdateLoad_fields p c t
  have hdur := (UpdateLoad_window_size p c t).2.trans hd
  have hwin := UpdateLoad_window p c t
  have hsub := List.dropWhile_sublist
    (fun point : LoadPoint => !decide (point.timestamp_ms > cutoff_time t p._window_duration_ms))
    (l := p._load_window)
  have hscore : ∀ point ∈ (p.UpdateLoad c t)._load_window, point.load_score = c := by
    intro point hpoint
    rw [hwin] at hpoint
    rcases List.mem_append.1 hpoint with h | h
    · exact hc point (hsub.subset h)
    · simp only [List.mem_singleton] at h
      subst h
      rfl
  refine ⟨⟨?_, hscore, f1, ?_, ?_, ?_⟩, hscore, hdur⟩
  · rw [hwin]; simp
  · intro point hpoint
    rw [hdur]
    rw [hwin] at hpoint ⊢
    rw [backTimestamp_concat]
    simp only
    rcases List.mem_append.1 hpoint with h | h
    · have := dropWhile_old_all_young _ _ hw point h
      rw [hd] at this
      exact this
    · simp only [List.mem_singleton] at h
      subst h
      simp only [cutoff_time]
      omega
  · intro h; rw [f2] at h; cases h
  · intro h; rw [f3] at h; cases h

theorem feed_constInv (c : ℚ) (calls : List (ℚ × Nat)) (p : LoadPredictor)
    (hne : calls ≠ []) (hw : TimeOrdered p._load_window)
    (hc : ∀ point ∈ p._load_window, point.load_score = c)
    (hp : ∀ point ∈ p._load_window, ∀ x ∈ calls, point.timestamp_ms ≤ x.2)
    (hd : p._window_duration_ms = 60000)
    (hx : ∀ x ∈ calls, x.1 = c ∧ 60000 ≤ x.2 ∧ x.2 < 2 ^ 64)
    (ht : calls.Pairwise (fun a b => a.2 ≤ b.2)) :
    ConstInv c (feed p calls) := by
  induction calls generalizing p with
  | nil => exact absurd rfl hne
  | cons x xs ih =>
    obtain ⟨x1, x2, x3⟩ := hx x (List.mem_cons_self _ _)
    rw [List.pairwise_cons] at ht
    obtain ⟨u1, u2, u3⟩ := UpdateLoad_constInv c p x.2 hw hc hd x2 x3
    obtain ⟨v1, v2⟩ := UpdateLoad_timeOrdered p c x.2 hw
      (fun point hpoint => hp point hpoint x (List.mem_cons_self _ _))
    have hfeed : feed p (x :: xs) = feed (p.UpdateLoad c x.2) xs := by
      simp only [feed, List.foldl_cons, x1]
    rw [hfeed]
    cases xs with
    | nil => simpa [feed] using u1
    | cons y ys =>
      exact ih (p.UpdateLoad c x.2) (by simp) v1 u2
        (fun point hpoint z hz => le_trans (v2 point hpoint) (ht.1 z hz)) u3
        (fun z hz => hx z (List.mem_cons_of_mem _ hz)) ht.2

/-- After one or more updates with the constant load score `c` at non-decreasing
timestamps of at least one window duration (60000 ms), every following
`PredictLoad` call, repeated calls included, returns exactly `c`. -/
theorem predictAll_constant_feed (c : ℚ) (calls : List (ℚ × Nat)) (hs : List Nat)
    (hne : calls ≠ []) (hx : ∀ x ∈ calls, x.1 = c ∧ 60000 ≤ x.2 ∧ x.2 < 2 ^ 64)
    (ht : calls.Pairwise (fun a b => a.2 ≤ b.2)) :
    ∀ r ∈ predictAll (feed init calls) hs, r = c :=
  predictAll_const c hs _
    (feed_constInv c calls init hne (by simp [TimeOrdered, init]) (by simp [init])
      (by simp [init]) rfl hx ht)

/-- C11 at the failing input: after `UpdateLoad(0.25, 10)`, `UpdateLoad(0.25, 20)`,
`UpdateLoad(0.25, 30)` (constant score, increasing timestamps) two consecutive
`PredictLoad(300000)` calls return 0.25 and then 0.0: the first call's cutoff
`30 - 60000` wraps around and its pruning empties the window. -/
theorem PredictLoad_constant_then_zero :
    predictAll constantEarly [300000, 300000] = [1 / 4, 0] := by
  have h0 : constantEarly =
      { init with _current_load := 1 / 4, _average_load := 1 / 4, _max_load := 1 / 4,
                  _min_load := 1 / 4,
                  _load_window := [{ load_score := 1 / 4, timestamp_ms := 30 }] } := by
    simp [constantEarly, feed, init, cutoff_time, UpdateLoad, PruneOldData, scoreSum]
  have h1 : constantEarly.PredictLoad 300000 =
      (1 / 4, { init with _current_load := 1 / 4, _average_load := 1 / 4, _max_load := 1 / 4,
                          _min_load := 1 / 4 }) := by
    rw [h0]
    simp [PredictLoad, backTimestamp, init, cutoff_time, PruneOldData]
  simp only [predictAll, h1]
  simp [PredictLoad, init]

/-! ### Increasing load scores -/

end LoadPredictor

/-! ## Dispatcher and ConnectionMigrator -/

namespace ConnectionMigrator

/-- C19: if the socket, the source dispatcher or the target dispatcher passed to
`MigrateConnection` is null, the call returns false and the world is unchanged:
same migration map, same task lists, same socket fields. -/
theorem MigrateConnection_null_argument (w : World) (sock src tgt : Option Nat)
    (h : sock = none ∨ src = none ∨ tgt = none) :
    MigrateConnection w sock src tgt = (false, w) := by
  unfold MigrateConnection
  rcases h with h | h | h <;> subst h
  · rfl
  · cases sock <;> rfl
  · cases sock <;> cases src <;> rfl

/-- C19 on the world `oneConnection`, with a null socket, a null source and a null
target in turn. -/
theorem MigrateConnection_null_argument_witness :
    MigrateConnection oneConnection none (some 1) (some 2) = (false, oneConnection) ∧
      MigrateConnection oneConnection (some 7) none (some 2) = (false, oneConnection) ∧
      MigrateConnection oneConnection (some 7) (some 1) none = (false, oneConnection) :=
  ⟨MigrateConnection_null_argument oneConnection none (some 1) (some 2) (Or.inl rfl),
    MigrateConnection_null_argument oneConnection (some 7) none (some 2) (Or.inr (Or.inl rfl)),
    MigrateConnection_null_argument oneConnection (some 7) (some 1) none (Or.inr (Or.inr rfl))⟩

/-- C18: if the migration map already holds, for the socket's descriptor, a
context in state `kPreparing` or `kMigrating`, then `MigrateConnection` for that
socket returns false and the world is unchanged: no new context, the existing
context and the rest of the map as before, no task posted. -/
theorem MigrateConnection_rejects_in_progress (w : World) (s : Nat) (src tgt : Option Nat)
    (ctx : MigrationContext)
    (hctx : w.migrator._migration_map (w.sockets s)._sock = some ctx)
    (hstate : ctx.state = .kPreparing ∨ ctx.state = .kMigrating) :
    MigrateConnection w (some s) src tgt = (false, w) := by
  have hb : blocked w.migrator (w.sockets s)._sock = true := by
    unfold blocked
    rw [hctx]
    rcases hstate with h | h <;> simp [h]
  unfold MigrateConnection
  cases src with
  | none => rfl
  | some a =>
    cases tgt with
    | none => rfl
    | some b => simp only [hb, if_true]

/-- C18 on the world `oneConnectionMigrating`, whose map holds a `kMigrating`
context for descriptor 42, the descriptor of socket 7. -/
theorem MigrateConnection_rejects_in_progress_witness :
    oneConnectionMigrating.migrator._migration_map (oneConnectionMigrating.sockets 7)._sock =
        some { socket := some 7, source_dispatcher := some 1, target_dispatcher := some 2,
               state := .kMigrating } ∧
      MigrateConnection oneConnectionMigrating (some 7) (some 1) (some 2) =
        (false, oneConnectionMigrating) :=
  have h : oneConnectionMigrating.migrator._migration_map (oneConnectionMigrating.sockets 7)._sock =
      some { socket := some 7, source_dispatcher := some 1, target_dispatcher := some 2,
             state := .kMigrating } := by
    simp [oneConnectionMigrating, oneConnection, World.storeContext]
  ⟨h, MigrateConnection_rejects_in_progress oneConnectionMigrating 7 (some 1) (some 2) _ h
    (Or.inr rfl)⟩

theorem IsMigrationInProgress_storeContext (w : World) (sock_fd : Nat) (ctx : MigrationContext) :
    IsMigrationInProgress (w.storeContext sock_fd ctx).migrator sock_fd =
      (decide (ctx.state = .kPreparing) || decide (ctx.state = .kMigrating)) := by
  simp [IsMigrationInProgress, World.storeContext]

/-- C20: `IsMigrationInProgress(id)` returns true if and only if the migration map
holds a context for `id` whose state is `kPreparing` or `kMigrating`; it is false
for an identifier without a context, and false for a socket's descriptor once a
`MigrateConnection` call that was not turned away has returned, since that call
leaves the context in `kCompleted` or `kFailed`. -/
theorem IsMigrationInProgress_iff (w : World) (id s src tgt : Nat) :
    (IsMigrationInProgress w.migrator id = true ↔
      ∃ ctx, w.migrator._migration_map id = some ctx ∧
        (ctx.state = .kPreparing ∨ ctx.state = .kMigrating)) ∧
    (w.migrator._migration_map id = none → IsMigrationInProgress w.migrator id = false) ∧
    (blocked w.migrator (w.sockets s)._sock = false →
      IsMigrationInProgress (MigrateConnection w (some s) (some src) (some tgt)).2.migrator
        (w.sockets s)._sock = false) := by
  refine ⟨?_, ?_, ?_⟩
  · unfold IsMigrationInProgress
    cases h : w.migrator._migration_map id with
    | none => simp
    | some ctx => simp
  · intro h
    simp [IsMigrationInProgress, h]
  · intro hb
    simp only [MigrateConnection, migrateLogged, hb, Bool.false_eq_true, if_false]
    rw [IsMigrationInProgress_storeContext]
    split <;> simp

/-- C20 on the world `oneConnection`: descriptor 42 was never migrated and is not
in progress, no migration blocks it, and it is not in progress after
`MigrateConnection(socket 7, dispatcher 1, dispatcher 2)` has returned. -/
theorem IsMigrationInProgress_iff_witness :
    oneConnection.migrator._migration_map 42 = none ∧
      IsMigrationInProgress oneConnection.migrator 42 = false ∧
      blocked oneConnection.migrator (oneConnection.sockets 7)._sock = false ∧
      IsMigrationInProgress
        (MigrateConnection oneConnection (some 7) (some 1) (some 2)).2.migrator
        (oneConnection.sockets 7)._sock = false :=
  ⟨rfl, (IsMigrationInProgress_iff oneConnection 42 7 1 2).2.1 rfl, rfl,
    (IsMigrationInProgress_iff oneConnection 42 7 1 2).2.2 rfl⟩

/-- C17 at the failing input: in the world `oneConnection` the connection with
descriptor 42 is registered with dispatcher 1 only; after the steps
`MigrateConnection(socket 7, dispatcher 1, dispatcher 2)` (which returns true) and
the task drain of the target dispatcher 2, it is in the registries of both
dispatcher 1 and dispatcher 2. -/
theorem registered_with_both_after_target_drain :
    (Registered oneConnection 1 42 ∧ ¬ Registered oneConnection 2 42) ∧
      (MigrateConnection oneConnection (some 7) (some 1) (some 2)).1 = true ∧
      Registered (runActions oneConnection [.migrate (some 7) (some 1) (some 2), .drain 2]) 1 42 ∧
      Registered (runActions oneConnection [.migrate (some 7) (some 1) (some 2), .drain 2]) 2 42 := by
  decide

/-- A `MigrateConnection` call that is not turned away returns true, appends three
tasks to the source dispatcher and three to the target dispatcher, leaves every
connection map and every socket descriptor alone, and points the socket at the
target dispatcher. -/
theorem MigrateConnection_posts (w : World) (s src tgt : Nat) (hne : src ≠ tgt)
    (hb : blocked w.migrator (w.sockets s)._sock = false) :
    (MigrateConnection w (some s) (some src) (some tgt)).1 = true ∧
    ((MigrateConnection w (some s) (some src) (some tgt)).2.dispatchers src)._task_list =
      (w.dispatchers src)._task_list ++
        [.stopPending s, .removeConnection src s, .removeEvents src s] ∧
    ((MigrateConnection w (some s) (some src) (some tgt)).2.dispatchers tgt)._task_list =
      (w.dispatchers tgt)._task_list ++
        [.addConnection tgt s, .addEvents tgt s, .resumeRead s] ∧
    (∀ d, ((MigrateConnection w (some s) (some src) (some tgt)).2.dispatchers d)._connection_map =
      (w.dispatchers d)._connection_map) ∧
    (∀ s', ((MigrateConnection w (some s) (some src) (some tgt)).2.sockets s')._sock =
      (w.sockets s')._sock) ∧
    ((MigrateConnection w (some s) (some src) (some tgt)).2.sockets s)._dispatcher = some tgt := by
  have hne' : tgt ≠ src := fun h => hne h.symm
  refine ⟨?_, ?_, ?_, ?_, ?_, ?_⟩
  · simp [MigrateConnection, migrateLogged, hb, runSteps, runStepsLogged, PrepareMigration,
      MigrateSocket, MigrateBuffers,
      MigrateEvents, CompleteMigration]
  · simp [MigrateConnection, migrateLogged, hb, runSteps, runStepsLogged, PrepareMigration,
      MigrateSocket, MigrateBuffers,
      MigrateEvents, CompleteMigration, Dispatcher.PostTask, World.setDispatcher, World.setSocket,
      World.storeContext, Function.update, hne, hne']
  · simp [MigrateConnection, migrateLogged, hb, runSteps, runStepsLogged, PrepareMigration,
      MigrateSocket, MigrateBuffers,
      MigrateEvents, CompleteMigration, Dispatcher.PostTask, World.setDispatcher, World.setSocket,
      World.storeContext, Function.update, hne, hne']
  · intro d
    simp [MigrateConnection, migrateLogged, hb, runSteps, runStepsLogged, PrepareMigration,
      MigrateSocket, MigrateBuffers,
      MigrateEvents, CompleteMigration, Dispatcher.PostTask, World.setDispatcher, World.setSocket,
      World.storeContext, Function.update, hne, hne']
    split_ifs <;> simp_all
  · intro s'
    simp [MigrateConnection, migrateLogged, hb, runSteps, runStepsLogged, PrepareMigration,
      MigrateSocket, MigrateBuffers,
      MigrateEvents, CompleteMigration, Dispatcher.PostTask, World.setDispatcher, World.setSocket,
      World.storeContext, Function.update, hne, hne']
    split_ifs <;> simp_all
  · simp [MigrateConnection, migrateLogged, hb, runSteps, runStepsLogged, PrepareMigration,
      MigrateSocket, MigrateBuffers,
      MigrateEvents, CompleteMigration, Dispatcher.PostTask, World.setDispatcher, World.setSocket,
      World.storeContext, Function.update, hne, hne']


/-- Draining the three tasks that a migration posted to the source dispatcher
removes the connection from its registry. -/
theorem DoTask_source_tasks (w : World) (s src : Nat)
    (h : (w.dispatchers src)._task_list =
      [.stopPending s, .removeConnection src s, .removeEvents src s]) :
    (Dispatcher.DoTask w src).sockets = w.sockets ∧
    (∀ d, d ≠ src → (Dispatcher.DoTask w src).dispatchers d = w.dispatchers d) ∧
    ((Dispatcher.DoTask w src).dispatchers src)._task_list = [] ∧
    ¬ Registered (Dispatcher.DoTask w src) src (w.sockets s)._sock := by
  unfold Registered
  simp only [Dispatcher.DoTask, h, List.foldl_cons, List.foldl_nil, Task.run,
    Dispatcher.RemoveConnection, World.setDispatcher, Function.update_same]
  cases hl : (w.dispatchers src)._connection_map.lookup (w.sockets s)._sock with
  | none =>
    simp only [Function.update_same]
    refine ⟨trivial, ?_, trivial, ?_⟩
    · intro d hd
      simp [Function.update, hd]
    · exact AList.lookup_eq_none.1 hl
  | some x =>
    cases hm : w.load_monitor with
    | none =>
      simp only [Dispatcher.reportLoad, hm, Function.update_same, Function.update_idem]
      refine ⟨trivial, ?_, trivial, ?_⟩
      · intro d hd
        simp [Function.update, hd]
      · simp [AList.mem_erase]
    | some m =>
      simp only [Dispatcher.reportLoad, hm, Function.update_same, Function.update_idem]
      refine ⟨trivial, ?_, trivial, ?_⟩
      · intro d hd
        simp [Function.update, hd]
      · simp [AList.mem_erase]

/-- Draining the three tasks that a migration posted to the target dispatcher
puts the connection into its registry. -/
theorem DoTask_target_tasks (w : World) (s tgt : Nat)
    (h : (w.dispatchers tgt)._task_list =
      [.addConnection tgt s, .addEvents tgt s, .resumeRead s]) :
    (Dispatcher.DoTask w tgt).sockets = w.sockets ∧
    (∀ d, d ≠ tgt → (Dispatcher.DoTask w tgt).dispatchers d = w.dispatchers d) ∧
    ((Dispatcher.DoTask w tgt).dispatchers tgt)._task_list = [] ∧
    ((Dispatcher.DoTask w tgt).dispatchers tgt)._connection_map.lookup (w.sockets s)._sock =
      some s := by
  simp only [Dispatcher.DoTask, h, List.foldl_cons, List.foldl_nil, Task.run,
    Dispatcher.AddConnection, World.setDispatcher, Function.update_same]
  cases hm : w.load_monitor with
  | none =>
    simp only [Dispatcher.reportLoad, hm, Function.update_same, Function.update_idem]
    refine ⟨trivial, ?_, trivial, ?_⟩
    · intro d hd
      simp [Function.update, hd]
    · simp
  | some m =>
    simp only [Dispatcher.reportLoad, hm, Function.update_same, Function.update_idem]
    refine ⟨trivial, ?_, trivial, ?_⟩
    · intro d hd
      simp [Function.update, hd]
    · simp

theorem MigrateConnection_true_not_blocked (w : World) (s src tgt : Nat)
    (hret : (MigrateConnection w (some s) (some src) (some tgt)).1 = true) :
    blocked w.migrator (w.sockets s)._sock = false := by
  by_contra hb
  simp only [Bool.not_eq_false] at hb
  simp [MigrateConnection, hb] at hret

/-- C16: if `MigrateConnection(sock, source, target)` with `source ≠ target`
returns true, the task lists of both dispatchers having been empty before the
call, then once both dispatchers have drained the tasks posted by the migration,
in either order, the connection is in the target dispatcher's registry (under
the socket's descriptor), is not in the source dispatcher's registry, and the
socket's dispatcher reference is the target. -/
theorem migrated_connection_on_target (w : World) (s src tgt : Nat) (hne : src ≠ tgt)
    (hq1 : (w.dispatchers src)._task_list = []) (hq2 : (w.dispatchers tgt)._task_list = [])
    (hret : (MigrateConnection w (some s) (some src) (some tgt)).1 = true) :
    ∀ final ∈ [runActions w [.migrate (some s) (some src) (some tgt), .drain src, .drain tgt],
               runActions w [.migrate (some s) (some src) (some tgt), .drain tgt, .drain src]],
      (final.dispatchers tgt)._connection_map.lookup (w.sockets s)._sock = some s ∧
        ¬ Registered final src (w.sockets s)._sock ∧
        (final.sockets s)._dispatcher = some tgt := by
  have hb := MigrateConnection_true_not_blocked w s src tgt hret
  obtain ⟨-, p2, p3, -, p5, p6⟩ := MigrateConnection_posts w s src tgt hne hb
  rw [hq1, List.nil_append] at p2
  rw [hq2, List.nil_append] at p3
  have hne' : tgt ≠ src := fun h => hne h.symm
  intro final hfinal
  simp only [List.mem_cons, List.mem_singleton, List.not_mem_nil, or_false] at hfinal
  rcases hfinal with rfl | rfl
  · simp only [runActions, List.foldl_cons, List.foldl_nil, Action.run]
    obtain ⟨a1, a2, -, a4⟩ := DoTask_source_tasks _ s src p2
    have htl : ((Dispatcher.DoTask (MigrateConnection w (some s) (some src) (some tgt)).2
        src).dispatchers tgt)._task_list =
        [.addConnection tgt s, .addEvents tgt s, .resumeRead s] := by
      rw [a2 tgt hne']; exact p3
    obtain ⟨b1, b2, -, b4⟩ := DoTask_target_tasks _ s tgt htl
    rw [a1, p5 s] at b4
    rw [p5 s] at a4
    refine ⟨b4, ?_, ?_⟩
    · unfold Registered at a4 ⊢
      rw [b2 src hne]
      exact a4
    · rw [b1, a1]; exact p6
  · simp only [runActions, List.foldl_cons, List.foldl_nil, Action.run]
    obtain ⟨b1, b2, -, b4⟩ := DoTask_target_tasks _ s tgt p3
    have htl : ((Dispatcher.DoTask (MigrateConnection w (some s) (some src) (some tgt)).2
        tgt).dispatchers src)._task_list =
        [.stopPending s, .removeConnection src s, .removeEvents src s] := by
      rw [b2 src hne]; exact p2
    obtain ⟨a1, a2, -, a4⟩ := DoTask_source_tasks _ s src htl
    rw [b1, p5 s] at a4
    rw [p5 s] at b4
    refine ⟨?_, a4, ?_⟩
    · rw [a2 tgt hne']
      exact b4
    · rw [a1, b1]; exact p6

/-- C16 on the world `oneConnection`, where the connection with descriptor 42
(socket 7) is registered with dispatcher 1 only and both task lists are empty. -/
theorem migrated_connection_on_target_witness :
    (Registered oneConnection 1 42 ∧ ¬ Registered oneConnection 2 42) ∧
    ∀ final ∈ [runActions oneConnection [.migrate (some 7) (some 1) (some 2), .drain 1, .drain 2],
               runActions oneConnection [.migrate (some 7) (some 1) (some 2), .drain 2, .drain 1]],
      (final.dispatchers 2)._connection_map.lookup (oneConnection.sockets 7)._sock = some 7 ∧
        ¬ Registered final 1 (oneConnection.sockets 7)._sock ∧
        (final.sockets 7)._dispatcher = some 2 :=
  ⟨by decide,
    migrated_connection_on_target oneConnection 7 1 2 (by decide) rfl rfl (by decide)⟩

end ConnectionMigrator

/-! ## Dispatcher: task list and connection registry -/

namespace Dispatcher

/-- C24: for every world and every socket descriptor that is not in the
dispatcher's connection registry, `RemoveConnection` is a no-op: the world after
the call is the world before it, so the registry and the connection count are
unchanged and nothing is pushed to the load monitor. -/
theorem RemoveConnection_absent (w : World) (d sockfd : Nat) (h : ¬ Registered w d sockfd) :
    RemoveConnection w d sockfd = w := by
  unfold Registered at h
  unfold RemoveConnection
  rw [AList.lookup_eq_none.2 h]

/-- C24 on the world `fresh`, whose dispatcher 0 has an empty registry. -/
theorem RemoveConnection_absent_witness :
    ¬ Registered fresh 0 42 ∧ RemoveConnection fresh 0 42 = fresh :=
  ⟨by decide, RemoveConnection_absent fresh 0 42 (by decide)⟩

theorem postAll_task_list (tasks : List Task) (w : World) (d : Nat) :
    ((postAll w d tasks).dispatchers d)._task_list = (w.dispatchers d)._task_list ++ tasks := by
  induction tasks generalizing w with
  | nil => simp [postAll]
  | cons t ts ih =>
    have h := ih (PostTask w d t)
    simp only [postAll, List.foldl_cons] at h ⊢
    rw [h]
    simp [PostTask, World.setDispatcher]

theorem reportLoad_dispatchers (w : World) (d : Nat) :
    (reportLoad w d).dispatchers = w.dispatchers := by
  unfold reportLoad
  cases w.load_monitor <;> rfl

/-- Running one closure appends to the task list of dispatcher `d` exactly what
the closure posts to `d`. -/
theorem run_task_list (w : World) (d : Nat) (task : Task) :
    ((Task.run w task).dispatchers d)._task_list =
      (w.dispatchers d)._task_list ++ postedBy d task := by
  cases task with
  | removeConnection d0 s0 =>
    simp only [Task.run, postedBy, List.append_nil, RemoveConnection]
    cases (w.dispatchers d0)._connection_map.lookup (w.sockets s0)._sock with
    | none => rfl
    | some x =>
      simp only [reportLoad_dispatchers, World.setDispatcher]
      by_cases hd : d = d0
      · subst hd; simp
      · simp [Function.update, hd]
  | addConnection d0 s0 =>
    simp only [Task.run, postedBy, List.append_nil, AddConnection, reportLoad_dispatchers,
      World.setDispatcher]
    by_cases hd : d = d0
    · subst hd; simp
    · simp [Function.update, hd]
  | post d0 t0 =>
    simp only [Task.run, postedBy, PostTask, World.setDispatcher]
    by_cases hd : d0 = d
    · subst hd; simp
    · have hd' : d ≠ d0 := fun h => hd h.symm
      simp [Function.update, hd, hd']
  | stopPending _ => simp [Task.run, postedBy]
  | removeEvents _ _ => simp [Task.run, postedBy]
  | addEvents _ _ => simp [Task.run, postedBy]
  | resumeRead _ => simp [Task.run, postedBy]

theorem foldl_run_task_list (tasks : List Task) (w : World) (d : Nat) :
    ((tasks.foldl Task.run w).dispatchers d)._task_list =
      (w.dispatchers d)._task_list ++ (tasks.map (postedBy d)).flatten := by
  induction tasks generalizing w with
  | nil => simp
  | cons t ts ih =>
    simp only [List.foldl_cons, List.map_cons, List.flatten_cons]
    rw [ih, run_task_list, List.append_assoc]

/-- C25: after any run of `PostTask` calls the task list holds the tasks in the
order posted (behind what was enqueued before); a drain runs exactly the tasks of
the list, in that order, on a world whose list was emptied; the list after the
drain holds exactly the tasks posted during the drain, in order; and the next
drain runs exactly those. -/
theorem DoTask_fifo (w : World) (d : Nat) (tasks : List Task) :
    ((postAll w d tasks).dispatchers d)._task_list = (w.dispatchers d)._task_list ++ tasks ∧
    DoTask (postAll w d tasks) d =
      ((w.dispatchers d)._task_list ++ tasks).foldl Task.run
        ((postAll w d tasks).setDispatcher d
          { (postAll w d tasks).dispatchers d with _task_list := [] }) ∧
    ((DoTask (postAll w d tasks) d).dispatchers d)._task_list =
      (((w.dispatchers d)._task_list ++ tasks).map (postedBy d)).flatten ∧
    DoTask (DoTask (postAll w d tasks) d) d =
      ((((w.dispatchers d)._task_list ++ tasks).map (postedBy d)).flatten).foldl Task.run
        ((DoTask (postAll w d tasks) d).setDispatcher d
          { (DoTask (postAll w d tasks) d).dispatchers d with _task_list := [] }) := by
  have h1 := postAll_task_list tasks w d
  have h3 : ((DoTask (postAll w d tasks) d).dispatchers d)._task_list =
      (((w.dispatchers d)._task_list ++ tasks).map (postedBy d)).flatten := by
    simp only [DoTask, foldl_run_task_list, h1]
    simp [World.setDispatcher]
  refine ⟨h1, ?_, h3, ?_⟩
  · simp only [DoTask, h1]
  · conv_lhs => rw [DoTask]
    simp only [h3]

/-- C28 at the failing input: on a dispatcher in its initial state,
`AddConnection(42, sock)` called twice leaves one entry in the registry while
`GetConnectionCount()` returns 2, and 2 is what was pushed to the load monitor. -/
theorem count_exceeds_registry_after_double_add :
    registrySize (AddConnection (AddConnection fresh 0 42 7) 0 42 7) 0 = 1 ∧
      GetConnectionCount (AddConnection (AddConnection fresh 0 42 7) 0 42 7) 0 = 2 ∧
      (AddConnection (AddConnection fresh 0 42 7) 0 42 7).load_monitor =
        some { _dispatcher_loads :=
          [{ dispatcher := some 0, load_info := { connection_count := 2 } }] } := by
  decide

/-- Adding a descriptor that is not yet in the registry keeps the connection
count equal to the number of registry entries. -/
theorem AddConnection_new_keeps_count (w : World) (d sockfd sock : Nat)
    (hinv : GetConnectionCount w d = registrySize w d) (hnew : ¬ Registered w d sockfd)
    (hroom : registrySize w d + 1 < 2 ^ 32) :
    GetConnectionCount (AddConnection w d sockfd sock) d =
      registrySize (AddConnection w d sockfd sock) d := by
  unfold Registered at hnew
  unfold GetConnectionCount registrySize at *
  simp only [AddConnection, reportLoad_dispatchers, World.setDispatcher, Function.update_same,
    AList.insert_entries_of_neg hnew, List.length_cons, hinv]
  exact Nat.mod_eq_of_lt hroom

/-- Removing a descriptor keeps the connection count equal to the number of
registry entries. -/
theorem RemoveConnection_keeps_count (w : World) (d sockfd : Nat)
    (hinv : GetConnectionCount w d = registrySize w d) (hroom : registrySize w d < 2 ^ 32) :
    GetConnectionCount (RemoveConnection w d sockfd) d =
      registrySize (RemoveConnection w d sockfd) d := by
  by_cases hreg : Registered w d sockfd
  · unfold Registered at hreg
    obtain ⟨x, hx⟩ := Option.isSome_iff_exists.1 (AList.lookup_isSome.2 hreg)
    have hlen : ((w.dispatchers d)._connection_map.erase sockfd).entries.length + 1 =
        (w.dispatchers d)._connection_map.entries.length := by
      have h1 : ((w.dispatchers d)._connection_map.erase sockfd).keys.length + 1 =
          (w.dispatchers d)._connection_map.keys.length := by
        rw [AList.keys_erase, List.length_erase_of_mem (AList.mem_keys.1 hreg)]
        have : 0 < (w.dispatchers d)._connection_map.keys.length :=
          List.length_pos_of_mem (AList.mem_keys.1 hreg)
        omega
      simpa [AList.keys, List.keys] using h1
    unfold GetConnectionCount registrySize at *
    simp only [RemoveConnection, hx, reportLoad_dispatchers, World.setDispatcher,
      Function.update_same, hinv]
    omega
  · rw [RemoveConnection_absent w d sockfd hreg]
    exact hinv

end Dispatcher

/-! ## ConnectionMigrator: state machine and outcome -/

namespace ConnectionMigrator

/-- With a non-null socket, source and target each of the five steps reports
success, on every world and whatever the state of the context. -/
theorem steps_cannot_fail (w : World) (s src tgt : Nat) (state : MigrationState) :
    (PrepareMigration w ⟨some s, some src, some tgt, state⟩).1 = true ∧
      (MigrateSocket w ⟨some s, some src, some tgt, state⟩).1 = true ∧
      (MigrateBuffers w ⟨some s, some src, some tgt, state⟩).1 = true ∧
      (MigrateEvents w ⟨some s, some src, some tgt, state⟩).1 = true ∧
      (CompleteMigration w ⟨some s, some src, some tgt, state⟩).1 = true :=
  ⟨rfl, rfl, rfl, rfl, rfl⟩

/-- Without the log, a `MigrateConnection` call that passes the checks stores the
context in state `kPreparing`, runs the `try` block, and stores the context again
with the final state: `kCompleted` when every step succeeded, `kFailed` otherwise. -/
theorem MigrateConnection_eq_runSteps (w : World) (s src tgt : Nat)
    (hb : blocked w.migrator (w.sockets s)._sock = false) :
    MigrateConnection w (some s) (some src) (some tgt) =
      ((runSteps (w.storeContext (w.sockets s)._sock ⟨some s, some src, some tgt, .kPreparing⟩)
          ⟨some s, some src, some tgt, .kPreparing⟩).1,
        (runSteps (w.storeContext (w.sockets s)._sock ⟨some s, some src, some tgt, .kPreparing⟩)
          ⟨some s, some src, some tgt, .kPreparing⟩).2.1.storeContext (w.sockets s)._sock
          { (runSteps
              (w.storeContext (w.sockets s)._sock ⟨some s, some src, some tgt, .kPreparing⟩)
              ⟨some s, some src, some tgt, .kPreparing⟩).2.2 with
            state :=
              if (runSteps
                  (w.storeContext (w.sockets s)._sock ⟨some s, some src, some tgt, .kPreparing⟩)
                  ⟨some s, some src, some tgt, .kPreparing⟩).1
              then MigrationState.kCompleted else MigrationState.kFailed }) := by
  simp only [MigrateConnection, migrateLogged, hb, Bool.false_eq_true, if_false, runSteps]

/-- C21: a `MigrateConnection` call that passes the checks creates a context, and
the successive values of its state, as the call produces them, are `kIdle`,
`kPreparing`, `kMigrating` (set by `PrepareMigration` and left alone by the next
three steps), `kCompleted` (set by `CompleteMigration`) and `kCompleted` again
(set after the `try` block): every change stays on the state or follows an arrow
of the machine `Idle → Preparing → Migrating → {Completed | Failed}`; and when the
call returns the context held by the map is in the terminal state that matches
the result, `kCompleted` if the call returned true, `kFailed` if it returned
false. -/
theorem context_follows_state_machine (w : World) (s src tgt : Nat)
    (hb : blocked w.migrator (w.sockets s)._sock = false) :
    MigrateConnection w (some s) (some src) (some tgt) = (migrateLogged w s src tgt).1 ∧
      contextHistory w s src tgt =
        [.kIdle, .kPreparing, .kMigrating, .kMigrating, .kMigrating, .kMigrating, .kCompleted,
         .kCompleted] ∧
      (contextHistory w s src tgt).Chain' Follows ∧
      ∃ ctx, (MigrateConnection w (some s) (some src) (some tgt)).2.migrator._migration_map
            (w.sockets s)._sock = some ctx ∧
        ctx.state = (if (MigrateConnection w (some s) (some src) (some tgt)).1
          then MigrationState.kCompleted else MigrationState.kFailed) ∧
        (contextHistory w s src tgt).getLast? = some ctx.state := by
  have hhist : contextHistory w s src tgt =
      [.kIdle, .kPreparing, .kMigrating, .kMigrating, .kMigrating, .kMigrating, .kCompleted,
       .kCompleted] := by
    simp [contextHistory, migrateLogged, runStepsLogged, PrepareMigration, MigrateSocket,
      MigrateBuffers, MigrateEvents, CompleteMigration]
  rw [hhist]
  refine ⟨by simp [MigrateConnection, hb], rfl, by simp [Follows, Edge], ?_⟩
  simp [MigrateConnection, migrateLogged, hb, runStepsLogged, PrepareMigration, MigrateSocket,
    MigrateBuffers, MigrateEvents, CompleteMigration, World.storeContext, Dispatcher.PostTask,
    World.setDispatcher, World.setSocket]

/-- C21 on the world `oneConnection` and the migration of socket 7 from
dispatcher 1 to dispatcher 2. -/
theorem context_follows_state_machine_witness :
    blocked oneConnection.migrator (oneConnection.sockets 7)._sock = false ∧
    contextHistory oneConnection 7 1 2 =
      [.kIdle, .kPreparing, .kMigrating, .kMigrating, .kMigrating, .kMigrating, .kCompleted,
       .kCompleted] ∧
    (contextHistory oneConnection 7 1 2).Chain' Follows ∧
      ∃ ctx, (MigrateConnection oneConnection (some 7) (some 1) (some 2)).2.migrator._migration_map
            (oneConnection.sockets 7)._sock = some ctx ∧
        ctx.state = (if (MigrateConnection oneConnection (some 7) (some 1) (some 2)).1
          then MigrationState.kCompleted else MigrationState.kFailed) ∧
        (contextHistory oneConnection 7 1 2).getLast? = some ctx.state :=
  ⟨rfl, (context_follows_state_machine oneConnection 7 1 2 rfl).2⟩

theorem not_blocked_of_not_in_progress (w : World) (sock_fd : Nat)
    (hprog : IsMigrationInProgress w.migrator sock_fd = false) (hidle : NoIdleContext w) :
    blocked w.migrator sock_fd = false := by
  unfold blocked
  unfold IsMigrationInProgress at hprog
  cases hm : w.migrator._migration_map sock_fd with
  | none => rfl
  | some ctx =>
    have h0 := hidle sock_fd ctx hm
    rw [hm] at hprog
    cases hs : ctx.state <;> simp_all

theorem reportLoad_migrator (w : World) (d : Nat) :
    (Dispatcher.reportLoad w d).migrator = w.migrator := by
  unfold Dispatcher.reportLoad
  cases w.load_monitor <;> rfl

theorem run_migrator (w : World) (task : Task) : (Task.run w task).migrator = w.migrator := by
  cases task with
  | removeConnection d0 s0 =>
    simp only [Task.run, Dispatcher.RemoveConnection]
    cases (w.dispatchers d0)._connection_map.lookup (w.sockets s0)._sock with
    | none => rfl
    | some x => simp only [reportLoad_migrator]; rfl
  | addConnection d0 s0 =>
    simp only [Task.run, Dispatcher.AddConnection, reportLoad_migrator]
    rfl
  | post d0 t0 => rfl
  | stopPending _ => rfl
  | removeEvents _ _ => rfl
  | addEvents _ _ => rfl
  | resumeRead _ => rfl

theorem DoTask_migrator (w : World) (d : Nat) : (Dispatcher.DoTask w d).migrator = w.migrator := by
  have h : ∀ (tasks : List Task) (v : World), (tasks.foldl Task.run v).migrator = v.migrator := by
    intro tasks
    induction tasks with
    | nil => intro v; rfl
    | cons t ts ih => intro v; simp only [List.foldl_cons]; rw [ih, run_migrator]
  unfold Dispatcher.DoTask
  rw [h]
  rfl

theorem MigrateConnection_noIdleContext (w : World) (sock src tgt : Option Nat)
    (hidle : NoIdleContext w) : NoIdleContext (MigrateConnection w sock src tgt).2 := by
  cases sock with
  | none => exact hidle
  | some s =>
    cases src with
    | none => exact hidle
    | some a =>
      cases tgt with
      | none => exact hidle
      | some b =>
        by_cases hb : blocked w.migrator (w.sockets s)._sock = true
        · simpa [MigrateConnection, hb] using hidle
        · simp only [Bool.not_eq_true] at hb
          intro sock_fd ctx hctx
          simp only [MigrateConnection, migrateLogged, hb, Bool.false_eq_true, if_false,
            runStepsLogged, PrepareMigration, MigrateSocket, MigrateBuffers, MigrateEvents, CompleteMigration,
            World.storeContext, Dispatcher.PostTask, World.setDispatcher, World.setSocket,
            Bool.not_true, if_true] at hctx
          by_cases hk : sock_fd = (w.sockets s)._sock
          · subst hk
            simp only [Function.update_same, Option.some.injEq] at hctx
            rw [← hctx]
            simp
          · simp only [Function.update_noteq hk] at hctx
            exact hidle sock_fd ctx hctx

/-- Starting from a world whose migration map holds no `kIdle` context (the empty
map, for one), no sequence of `MigrateConnection` calls and task drains puts one
there. -/
theorem runActions_noIdleContext (steps : List Action) (w : World) (hidle : NoIdleContext w) :
    NoIdleContext (runActions w steps) := by
  induction steps generalizing w with
  | nil => exact hidle
  | cons a rest ih =>
    simp only [runActions, List.foldl_cons] at ih ⊢
    apply ih
    cases a with
    | migrate sock src tgt => exact MigrateConnection_noIdleContext w sock src tgt hidle
    | drain d =>
      intro sock_fd ctx hctx
      simp only [Action.run, DoTask_migrator] at hctx
      exact hidle sock_fd ctx hctx

theorem noIdleContext_oneConnection : NoIdleContext oneConnection := by
  intro sock_fd ctx h
  simp [oneConnection] at h

/-- C27: for a non-null socket, source and target such that no migration of the
socket's descriptor is in `kPreparing` or `kMigrating` (the map never holding a
`kIdle` context), `MigrateConnection` returns true and leaves the new context in
`kCompleted`; all it does to the dispatchers is the six `PostTask` calls of
`migrationPosts`, in phase order (three to the source, three to the target); the
socket is rebound to the target dispatcher and its event actions, with the
migrating marker cleared; no other socket and no load report is touched. -/
theorem MigrateConnection_succeeds (w : World) (s src tgt : Nat)
    (hprog : IsMigrationInProgress w.migrator (w.sockets s)._sock = false)
    (hidle : NoIdleContext w) :
    (MigrateConnection w (some s) (some src) (some tgt)).1 = true ∧
      (MigrateConnection w (some s) (some src) (some tgt)).2.migrator._migration_map
          (w.sockets s)._sock =
        some ⟨some s, some src, some tgt, .kCompleted⟩ ∧
      (MigrateConnection w (some s) (some src) (some tgt)).2.dispatchers =
        ((migrationPosts s src tgt).foldl (fun v p => Dispatcher.PostTask v p.1 p.2) w).dispatchers ∧
      (MigrateConnection w (some s) (some src) (some tgt)).2.sockets s =
        { w.sockets s with
          _dispatcher := some tgt
          _event_actions := (w.dispatchers tgt)._event_actions
          _context := none } ∧
      (∀ s', s' ≠ s →
        (MigrateConnection w (some s) (some src) (some tgt)).2.sockets s' = w.sockets s') ∧
      (MigrateConnection w (some s) (some src) (some tgt)).2.load_monitor = w.load_monitor := by
  have hb := not_blocked_of_not_in_progress w _ hprog hidle
  refine ⟨?_, ?_, ?_, ?_, ?_, ?_⟩
  · simp [MigrateConnection, migrateLogged, hb, runSteps, runStepsLogged, PrepareMigration,
      MigrateSocket, MigrateBuffers,
      MigrateEvents, CompleteMigration]
  · simp [MigrateConnection, migrateLogged, hb, runSteps, runStepsLogged, PrepareMigration,
      MigrateSocket, MigrateBuffers,
      MigrateEvents, CompleteMigration, World.storeContext, Dispatcher.PostTask,
      World.setDispatcher, World.setSocket]
  · simp [MigrateConnection, migrateLogged, hb, runSteps, runStepsLogged, PrepareMigration,
      MigrateSocket, MigrateBuffers,
      MigrateEvents, CompleteMigration, World.storeContext, Dispatcher.PostTask,
      World.setDispatcher, World.setSocket, migrationPosts]
  · simp [MigrateConnection, migrateLogged, hb, runSteps, runStepsLogged, PrepareMigration,
      MigrateSocket, MigrateBuffers,
      MigrateEvents, CompleteMigration, World.storeContext, Dispatcher.PostTask,
      World.setDispatcher, World.setSocket]
    by_cases h : src = tgt
    · subst h; simp
    · have h' : tgt ≠ src := fun e => h e.symm
      simp [Function.update, h, h']
  · intro s' hs'
    simp [MigrateConnection, migrateLogged, hb, runSteps, runStepsLogged, PrepareMigration,
      MigrateSocket, MigrateBuffers,
      MigrateEvents, CompleteMigration, World.storeContext, Dispatcher.PostTask,
      World.setDispatcher, World.setSocket, Function.update, hs']
  · simp [MigrateConnection, migrateLogged, hb, runSteps, runStepsLogged, PrepareMigration,
      MigrateSocket, MigrateBuffers,
      MigrateEvents, CompleteMigration, World.storeContext, Dispatcher.PostTask,
      World.setDispatcher, World.setSocket]

/-- C27 on the world `oneConnection` and the migration of socket 7 from
dispatcher 1 to dispatcher 2. -/
theorem MigrateConnection_succeeds_witness :
    (IsMigrationInProgress oneConnection.migrator (oneConnection.sockets 7)._sock = false ∧
      NoIdleContext oneConnection) ∧
    (MigrateConnection oneConnection (some 7) (some 1) (some 2)).1 = true ∧
      (MigrateConnection oneConnection (some 7) (some 1) (some 2)).2.migrator._migration_map
          (oneConnection.sockets 7)._sock =
        some ⟨some 7, some 1, some 2, .kCompleted⟩ :=
  ⟨⟨rfl, noIdleContext_oneConnection⟩,
    (MigrateConnection_succeeds oneConnection 7 1 2 rfl noIdleContext_oneConnection).1,
    (MigrateConnection_succeeds oneConnection 7 1 2 rfl noIdleContext_oneConnection).2.1⟩

end ConnectionMigrator

/-! ## The load-driven ConnectionMigrator -/

namespace LoadDrivenMigrator

/-- Whenever `MigrateSingleConnection` returns false for a target that has event
actions (or for a null target), it has changed nothing. -/
theorem MigrateSingleConnection_false_unchanged (w : World) (socket target_dispatcher : Option Nat)
    (htgt : ∀ tgt, target_dispatcher = some tgt → (w.dispatchers tgt)._event_actions ≠ none)
    (hret : (MigrateSingleConnection w socket target_dispatcher).1 = false) :
    (MigrateSingleConnection w socket target_dispatcher).2 = w := by
  unfold MigrateSingleConnection at hret ⊢
  cases socket with
  | none => rfl
  | some s =>
    cases target_dispatcher with
    | none => rfl
    | some tgt =>
      have h1 := htgt tgt rfl
      simp only at hret ⊢
      cases hd : (w.sockets s)._dispatcher with
      | none => rfl
      | some src =>
        simp only [hd] at hret ⊢
        by_cases he : src = tgt
        · simp [he]
        · simp only [he, if_false] at hret ⊢
          cases hs : (w.sockets s)._event_actions with
          | none => rfl
          | some e =>
            simp only [hs] at hret ⊢
            cases ht : (w.dispatchers tgt)._event_actions with
            | none => exact absurd ht h1
            | some e' =>
              simp [UpdateSocketDispatcher, World.setSocket, ht] at hret

/-- `MigrateSingleConnection` writes to the socket only: no dispatcher changes, so
the dispatchers keep their event actions. -/
theorem MigrateSingleConnection_eventActionsSet (w : World)
    (socket target_dispatcher : Option Nat) (hev : EventActionsSet w) :
    EventActionsSet (MigrateSingleConnection w socket target_dispatcher).2 := by
  have hd : (MigrateSingleConnection w socket target_dispatcher).2.dispatchers = w.dispatchers := by
    unfold MigrateSingleConnection
    cases socket with
    | none => rfl
    | some s =>
      cases target_dispatcher with
      | none => rfl
      | some tgt =>
        simp only
        split
        · rfl
        · split
          · rfl
          · split
            · rfl
            · split <;> rfl
  intro d
  rw [hd]
  exact hev d

theorem PostTask_event_actions (w : World) (d0 : Nat) (task : Task) (d : Nat) :
    ((Dispatcher.PostTask w d0 task).dispatchers d)._event_actions =
      (w.dispatchers d)._event_actions := by
  simp only [Dispatcher.PostTask, World.setDispatcher]
  by_cases hd : d = d0
  · subst hd; simp
  · simp [Function.update, hd]

/-- Running a posted closure leaves the event actions of every dispatcher alone. -/
theorem run_event_actions (w : World) (task : Task) (d : Nat) :
    ((Task.run w task).dispatchers d)._event_actions = (w.dispatchers d)._event_actions := by
  cases task with
  | removeConnection d0 s0 =>
    simp only [Task.run, Dispatcher.RemoveConnection]
    cases (w.dispatchers d0)._connection_map.lookup (w.sockets s0)._sock with
    | none => rfl
    | some x =>
      simp only [Dispatcher.reportLoad_dispatchers, World.setDispatcher]
      by_cases hd : d = d0
      · subst hd; simp
      · simp [Function.update, hd]
  | addConnection d0 s0 =>
    simp only [Task.run, Dispatcher.AddConnection, Dispatcher.reportLoad_dispatchers,
      World.setDispatcher]
    by_cases hd : d = d0
    · subst hd; simp
    · simp [Function.update, hd]
  | post d0 t0 => exact PostTask_event_actions w d0 t0 d
  | stopPending _ => rfl
  | removeEvents _ _ => rfl
  | addEvents _ _ => rfl
  | resumeRead _ => rfl

theorem DoTask_event_actions (w : World) (d0 d : Nat) :
    ((Dispatcher.DoTask w d0).dispatchers d)._event_actions =
      (w.dispatchers d)._event_actions := by
  have h : ∀ (tasks : List Task) (v : World),
      ((tasks.foldl Task.run v).dispatchers d)._event_actions =
        (v.dispatchers d)._event_actions := by
    intro tasks
    induction tasks with
    | nil => intro v; rfl
    | cons t ts ih => intro v; simp only [List.foldl_cons]; rw [ih, run_event_actions]
  unfold Dispatcher.DoTask
  rw [h]
  simp only [World.setDispatcher]
  by_cases hd : d = d0
  · subst hd; simp
  · simp [Function.update, hd]

theorem MigrateConnection_event_actions (w : World) (sock src tgt : Option Nat) (d : Nat) :
    (((ConnectionMigrator.MigrateConnection w sock src tgt).2).dispatchers d)._event_actions =
      (w.dispatchers d)._event_actions := by
  cases sock with
  | none => rfl
  | some s =>
    cases src with
    | none => rfl
    | some a =>
      cases tgt with
      | none => rfl
      | some b =>
        by_cases hb : ConnectionMigrator.blocked w.migrator (w.sockets s)._sock = true
        · simp [ConnectionMigrator.MigrateConnection, hb]
        · simp only [Bool.not_eq_true] at hb
          simp only [ConnectionMigrator.MigrateConnection, ConnectionMigrator.migrateLogged, hb,
            Bool.false_eq_true, if_false, ConnectionMigrator.runStepsLogged,
            ConnectionMigrator.PrepareMigration, ConnectionMigrator.MigrateSocket,
            ConnectionMigrator.MigrateBuffers, ConnectionMigrator.MigrateEvents,
            ConnectionMigrator.CompleteMigration, Bool.not_true, if_true]
          simp only [World.storeContext, World.setSocket, PostTask_event_actions]

/-- Starting from a world of constructed dispatchers, no sequence of
`MigrateConnection` calls and task drains takes the event actions away from a
dispatcher. -/
theorem runActions_eventActionsSet (steps : List Action) (w : World)
    (hev : EventActionsSet w) : EventActionsSet (runActions w steps) := by
  induction steps generalizing w with
  | nil => exact hev
  | cons a rest ih =>
    simp only [runActions, List.foldl_cons] at ih ⊢
    apply ih
    intro d
    cases a with
    | migrate sock src tgt =>
      simp only [Action.run]
      rw [MigrateConnection_event_actions]
      exact hev d
    | drain d0 =>
      simp only [Action.run]
      rw [DoTask_event_actions]
      exact hev d

theorem eventActionsSet_busyCluster : EventActionsSet busyCluster := by
  intro d
  simp only [busyCluster]
  split_ifs <;> simp

/-- C22: in a world of constructed dispatchers (each holds event actions),
whenever `MigrateSingleConnection(socket, target)` returns false it has changed
nothing: the world after the call is the world before it, and in particular the
dispatcher reference of every socket is the one it had before the call. -/
theorem MigrateSingleConnection_false_keeps_dispatcher (w : World)
    (socket target_dispatcher : Option Nat) (hev : EventActionsSet w)
    (hret : (MigrateSingleConnection w socket target_dispatcher).1 = false) :
    (MigrateSingleConnection w socket target_dispatcher).2 = w ∧
      ∀ s, ((MigrateSingleConnection w socket target_dispatcher).2.sockets s)._dispatcher =
        (w.sockets s)._dispatcher := by
  have h := MigrateSingleConnection_false_unchanged w socket target_dispatcher
    (fun tgt _ => hev tgt) hret
  exact ⟨h, fun s => by rw [h]⟩

/-- C22 on the world `busyCluster`: socket 7 belongs to dispatcher 1, so
`MigrateSingleConnection(socket 7, dispatcher 1)` returns false (source equal to
target) and socket 7 still refers to dispatcher 1. -/
theorem MigrateSingleConnection_false_keeps_dispatcher_witness :
    (MigrateSingleConnection busyCluster (some 7) (some 1)).1 = false ∧
      (MigrateSingleConnection busyCluster (some 7) (some 1)).2 = busyCluster ∧
      ((MigrateSingleConnection busyCluster (some 7) (some 1)).2.sockets 7)._dispatcher = some 1 :=
  ⟨rfl,
    (MigrateSingleConnection_false_keeps_dispatcher busyCluster (some 7) (some 1)
      eventActionsSet_busyCluster rfl).1,
    (MigrateSingleConnection_false_keeps_dispatcher busyCluster (some 7) (some 1)
      eventActionsSet_busyCluster rfl).2 7⟩

/-- `MigrateConnectionsFromOverloadedDispatcher` changes nothing, whatever the
loads: `SelectConnectionsToMigrate` selects no connection. -/
theorem MigrateConnectionsFromOverloadedDispatcher_unchanged (m : LoadDrivenMigrator)
    (w : World) : MigrateConnectionsFromOverloadedDispatcher m w = w := by
  unfold MigrateConnectionsFromOverloadedDispatcher
  split
  · rfl
  · split
    · rfl
    · split
      · rfl
      · split
        · rfl
        · split
          · rfl
          · rfl

/-- C23, as stated, fails: the monitor of `busyCluster` holds three
dispatchers reporting CPU 20, 95 and 40, dispatcher 1 (CPU 95) owns one
connection and the migrator is started; `NeedLoadBalance()` is true, the most
loaded dispatcher is 1 and the least loaded is 0, yet
`MigrateConnectionsFromOverloadedDispatcher()` leaves the connection counts at 1
and 0: there is no `k ≥ 1` by which one fell and the other rose. -/
theorem overloaded_dispatcher_keeps_its_connections :
    ({} : LoadDrivenMigrator).Start._running = true ∧
      busyCluster.load_monitor.map LoadMonitor.NeedLoadBalance = some true ∧
      busyCluster.load_monitor.map LoadMonitor.GetMostLoadedDispatcher = some (some 1) ∧
      busyCluster.load_monitor.map LoadMonitor.GetLeastLoadedDispatcher = some (some 0) ∧
      Registered busyCluster 1 42 ∧
      Dispatcher.GetConnectionCount
        (MigrateConnectionsFromOverloadedDispatcher ({} : LoadDrivenMigrator).Start busyCluster) 1 = 1 ∧
      Dispatcher.GetConnectionCount
        (MigrateConnectionsFromOverloadedDispatcher ({} : LoadDrivenMigrator).Start busyCluster) 0 = 0 ∧
      ¬ ∃ k, 1 ≤ k ∧
        Dispatcher.GetConnectionCount
          (MigrateConnectionsFromOverloadedDispatcher ({} : LoadDrivenMigrator).Start busyCluster) 1 + k =
          Dispatcher.GetConnectionCount busyCluster 1 ∧
        Dispatcher.GetConnectionCount
          (MigrateConnectionsFromOverloadedDispatcher ({} : LoadDrivenMigrator).Start busyCluster) 0 =
          Dispatcher.GetConnectionCount busyCluster 0 + k := by
  rw [MigrateConnectionsFromOverloadedDispatcher_unchanged]
  refine ⟨rfl, by decide, by decide, by decide, by decide, rfl, rfl, ?_⟩
  rintro ⟨k, hk, h1, -⟩
  omega

/-- C23, amended: when the load monitor of the world (CPU threshold 80) holds
three dispatchers reporting CPU 20, 95 and 40, `NeedLoadBalance()` is true,
`GetMostLoadedDispatcher()` is the CPU-95 dispatcher and
`GetLeastLoadedDispatcher()` the CPU-20 dispatcher; `SelectConnectionsToMigrate`
selects no connection, and `MigrateConnectionsFromOverloadedDispatcher()` of a
started migrator leaves the world as it was, so every connection count, registry
and socket is unchanged. -/
theorem overloaded_dispatcher_found_nothing_selected (m : LoadDrivenMigrator) (w : World)
    (monitor : LoadMonitor) (d0 d1 d2 : Option Nat) (i0 i1 i2 : LoadInfo)
    (hmon : w.load_monitor = some monitor)
    (hloads : monitor._dispatcher_loads = [⟨d0, i0⟩, ⟨d1, i1⟩, ⟨d2, i2⟩])
    (h0 : i0.cpu_usage = 20) (h1 : i1.cpu_usage = 95) (h2 : i2.cpu_usage = 40)
    (hthr : monitor._cpu_threshold = 80) :
    w.load_monitor.map LoadMonitor.NeedLoadBalance = some true ∧
      w.load_monitor.map LoadMonitor.GetMostLoadedDispatcher = some d1 ∧
      w.load_monitor.map LoadMonitor.GetLeastLoadedDispatcher = some d0 ∧
      (∀ source_dispatcher count, SelectConnectionsToMigrate w source_dispatcher count = []) ∧
      MigrateConnectionsFromOverloadedDispatcher m.Start w = w ∧
      (∀ d, Dispatcher.GetConnectionCount (MigrateConnectionsFromOverloadedDispatcher m.Start w) d =
        Dispatcher.GetConnectionCount w d) := by
  rw [MigrateConnectionsFromOverloadedDispatcher_unchanged, hmon]
  refine ⟨?_, ?_, ?_, fun _ _ => rfl, rfl, fun _ => rfl⟩
  · simp [LoadMonitor.NeedLoadBalance, hloads, LoadMonitor.maxStep, h0, h1, h2, hthr]
  · simp [LoadMonitor.GetMostLoadedDispatcher, hloads, LoadMonitor.mostStep, h0, h1, h2]
  · simp [LoadMonitor.GetLeastLoadedDispatcher, hloads, LoadMonitor.leastStep, h0, h1, h2]

/-- C23 amended, on the world `busyCluster`, whose dispatcher 1 (CPU 95) owns one
connection. -/
theorem overloaded_dispatcher_found_nothing_selected_witness :
    Registered busyCluster 1 42 ∧
      busyCluster.load_monitor.map LoadMonitor.NeedLoadBalance = some true ∧
      busyCluster.load_monitor.map LoadMonitor.GetMostLoadedDispatcher = some (some 1) ∧
      busyCluster.load_monitor.map LoadMonitor.GetLeastLoadedDispatcher = some (some 0) ∧
      (∀ source_dispatcher count,
        SelectConnectionsToMigrate busyCluster source_dispatcher count = []) ∧
      MigrateConnectionsFromOverloadedDispatcher ({} : LoadDrivenMigrator).Start busyCluster =
        busyCluster ∧
      (∀ d, Dispatcher.GetConnectionCount
          (MigrateConnectionsFromOverloadedDispatcher ({} : LoadDrivenMigrator).Start busyCluster) d =
        Dispatcher.GetConnectionCount busyCluster d) :=
  ⟨by decide,
    overloaded_dispatcher_found_nothing_selected {} busyCluster
      ((LoadMonitor.threeCpu 20 95 40).UpdateDispatcherLoad (some 1) 1)
      (some 0) (some 1) (some 2) { cpu_usage := 20 } { connection_count := 1, cpu_usage := 95 }
      { cpu_usage := 40 } rfl (by decide) rfl rfl rfl rfl⟩

end LoadDrivenMigrator

/-! ## AdaptiveLimiter -/

namespace AdaptiveLimiter

/-- C30 at the failing input: with the default limits (base 1000, minimum 100,
maximum 10000) an update with 9000 connections stores the limit 10000, and an
update with 4294967000 connections, a 32-bit value, stores 704: the product
`1000 * 4294968` wraps around at `2 ^ 32`. -/
theorem limit_drops_when_product_wraps :
    (9000 ≤ 4294967000 ∧ 4294967000 < 2 ^ 32) ∧
      (init.UpdateGlobalStats 0 0 9000).GetCurrentLimit = 10000 ∧
      scaledLimit 1000 4294967000 = 704 ∧
      (init.UpdateGlobalStats 0 0 4294967000).GetCurrentLimit = 704 := by
  decide

/-- As long as the product `_base_limit * (1 + n / 1000)` stays below `2 ^ 32` the
stored limit is monotone in the connection count. -/
theorem GetCurrentLimit_mono_without_wrap (a : AdaptiveLimiter) (i1 o1 i2 o2 n1 n2 : Nat)
    (hle : n1 ≤ n2) (hfit : a._base_limit * (1 + n2 / 1000) < 2 ^ 32) :
    (a.UpdateGlobalStats i1 o1 n1).GetCurrentLimit ≤
      (a.UpdateGlobalStats i2 o2 n2).GetCurrentLimit := by
  have hdiv : n1 / 1000 ≤ n2 / 1000 := Nat.div_le_div_right hle
  have hmul : a._base_limit * (1 + n1 / 1000) ≤ a._base_limit * (1 + n2 / 1000) :=
    Nat.mul_le_mul_left _ (by omega)
  by_cases hbase : a._base_limit = 0
  · simp [UpdateGlobalStats, GetCurrentLimit, scaledLimit, hbase]
  · have hpos : 0 < a._base_limit := Nat.pos_of_ne_zero hbase
    have hs : ∀ n, a._base_limit * (1 + n / 1000) < 2 ^ 32 →
        scaledLimit a._base_limit n = a._base_limit * (1 + n / 1000) := by
      intro n h1
      unfold scaledLimit
      have h2 : 1 + n / 1000 ≤ a._base_limit * (1 + n / 1000) :=
        Nat.le_mul_of_pos_left _ hpos
      rw [Nat.mod_eq_of_lt (lt_of_le_of_lt h2 h1), Nat.mod_eq_of_lt h1]
    have e2 := hs n2 hfit
    have e1 := hs n1 (lt_of_le_of_lt hmul hfit)
    simp only [UpdateGlobalStats, GetCurrentLimit, e1, e2]
    exact max_le_max le_rfl (min_le_min hmul le_rfl)

end AdaptiveLimiter

/-! ## LoadPredictor: caches and the latest point -/

namespace LoadPredictor

/-- C26 at the failing input: on the window `(0, 100000)`, `(1, 101000)` two
consecutive `PredictLoad(1000)` calls return `0.81` and then `-29.49`, while a
recomputation from the same window with both caches invalid returns `0.81`. -/
theorem cached_forecast_differs_from_recomputation :
    2 ≤ twoPoints._load_window.length ∧
      twoPointsPredicted._load_window = twoPoints._load_window ∧
      predictAll twoPoints [1000, 1000] = [81 / 100, -2949 / 100] ∧
      ((clearCaches twoPointsPredicted).PredictLoad 1000).1 = 81 / 100 := by
  have hp : twoPointsPredicted = (twoPoints.PredictLoad 1000).2 := rfl
  have h2 : (twoPointsPredicted.PredictLoad 1000).1 = -2949 / 100 := by
    rw [twoPointsPredicted_eq]
    simp [PredictLoad, backTimestamp, init, cutoff_time, PruneOldData, CalculateEMA,
      CalculateLinearRegression]
    norm_num
  refine ⟨?_, ?_, ?_, ?_⟩
  · rw [twoPoints_eq]; simp [init]
  · rw [twoPointsPredicted_eq, twoPoints_eq]
  · simp only [predictAll]
    rw [← hp, h2, twoPoints_PredictLoad]
  · rw [twoPointsPredicted_eq]
    simp [clearCaches, PredictLoad, backTimestamp, init, cutoff_time, PruneOldData, CalculateEMA,
      emaLoop, CalculateLinearRegression]
    norm_num

/-- C29 at the failing input: after `UpdateLoad(0.7, 59999)` the window holds the
point just inserted; the next `PredictLoad` computes the cutoff `59999 - 60000`,
which wraps around to `2^64 - 1`, and leaves the window empty. -/
theorem PredictLoad_prunes_latest_point :
    justBelowDuration._load_window = [{ load_score := 7 / 10, timestamp_ms := 59999 }] ∧
      cutoff_time 59999 60000 = 2 ^ 64 - 1 ∧
      (justBelowDuration.PredictLoad 300000).2._load_window = [] := by
  have h0 : justBelowDuration =
      { init with _current_load := 7 / 10, _average_load := 7 / 10, _max_load := 7 / 10,
                  _min_load := 7 / 10,
                  _load_window := [{ load_score := 7 / 10, timestamp_ms := 59999 }] } := by
    simp [justBelowDuration, init, UpdateLoad, PruneOldData, scoreSum]
  refine ⟨by rw [h0], by decide, ?_⟩
  rw [h0]
  simp [PredictLoad, backTimestamp, init, cutoff_time, PruneOldData]

theorem mem_dropWhile_of_not (q : LoadPoint → Bool) (x : LoadPoint) (l : List LoadPoint)
    (hx : x ∈ l) (hq : q x = false) : x ∈ l.dropWhile q := by
  induction l with
  | nil => cases hx
  | cons a l ih =>
    by_cases ha : q a = true
    · rw [List.dropWhile_cons_of_pos ha]
      rcases List.mem_cons.1 hx with rfl | h
      · rw [hq] at ha; cases ha
      · exact ih h
    · rw [List.dropWhile_cons_of_neg ha]
      exact hx

/-- The window that `PredictLoad` leaves behind is the window it was given,
pruned at the cutoff of the latest timestamp. -/
theorem PredictLoad_window (p : LoadPredictor) (h : Nat) :
    (p.PredictLoad h).2._load_window =
      (p.PruneOldData (backTimestamp p._load_window))._load_window := by
  unfold PredictLoad
  by_cases he : p._load_window.isEmpty = true
  · simp only [he, if_true]
    simp [PruneOldData, he]
  · simp only [he, Bool.false_eq_true, if_false]
    split
    · rfl
    · have h1 : ∀ q : LoadPredictor, q.CalculateEMA.2._load_window = q._load_window := by
        intro q
        unfold CalculateEMA
        split
        · rfl
        · split <;> simp_all
      have h2 : ∀ q : LoadPredictor,
          (q.CalculateLinearRegression h).2._load_window = q._load_window := by
        intro q
        unfold CalculateLinearRegression
        split
        · rfl
        · split
          · rfl
          · simp only
            split <;> rfl
      simp only [h2, h1]

/-- For a timestamp of at least one window duration the point inserted by
`UpdateLoad(s, t)` is still in the window after a following `PredictLoad`. -/
theorem PredictLoad_keeps_latest_point (p : LoadPredictor) (s : ℚ) (t h : Nat)
    (hd : p._window_duration_ms = 60000) (ht : 60000 ≤ t) (ht2 : t < 2 ^ 64) :
    ({ load_score := s, timestamp_ms := t } : LoadPoint) ∈
      ((p.UpdateLoad s t).PredictLoad h).2._load_window := by
  rw [PredictLoad_window, PruneOldData_window, UpdateLoad_window, backTimestamp_concat,
    (UpdateLoad_window_size p s t).2, hd]
  apply mem_dropWhile_of_not
  · simp
  · simp only [cutoff_time, gt_iff_lt, Bool.not_eq_eq_eq_not, Bool.not_false, decide_eq_true_eq]
    omega

end LoadPredictor

end cppnet
